import Mathlib

/-!
Shallow embedding of the ISO 15765-2 (ISO-TP) dissector
(`epan/dissectors/packet-iso15765.c`): address resolution
(`find_config_can_addr_mapping`, `handle_pdu_transport_addresses`),
frame classification and the segmentation/reassembly engine inside
`dissect_iso15765`, as pure Lean functions over explicit state.

Machine integers are modelled as `Nat` with explicit `% 2^w` where the C
code can overflow (the `guint8` wrap counters, the `guint32` running
offset and the `guint32` static sequence-id counter).  Frame bytes are a
`List Nat` of byte values; `tvb` reads are modelled with `% 256`.
Frames are assumed to carry the bytes their headers announce (the claims
under study do not concern truncated-capture exceptions).
-/

namespace Iso15765

/-! ## Byte access (tvb reads) -/

/-- `tvb_get_guint8`: one byte of the frame. -/
def tvbGet8 (bytes : List Nat) (i : Nat) : Nat := (bytes.getD i 0) % 256

/-- `tvb_get_guint16(..., ENC_BIG_ENDIAN)`. -/
def tvbGet16 (bytes : List Nat) (i : Nat) : Nat :=
  256 * tvbGet8 bytes i + tvbGet8 bytes (i + 1)

/-- `tvb_get_guint32(..., ENC_BIG_ENDIAN)`. -/
def tvbGet32 (bytes : List Nat) (i : Nat) : Nat :=
  16777216 * tvbGet8 bytes i + 65536 * tvbGet8 bytes (i + 1)
    + 256 * tvbGet8 bytes (i + 2) + tvbGet8 bytes (i + 3)

/-- Big-endian read of `size` bytes, as `proto_tree_add_item_ret_uint` does
for the address prefixes (sizes 0,1,2 in the configuration). -/
def tvbGetBE (bytes : List Nat) (off : Nat) : Nat → Nat
  | 0 => 0
  | n + 1 => 256 * tvbGetBE bytes off n + tvbGet8 bytes (off + n)

/-! ## Bit helpers (`wsutil/bits_ctz.h`) -/

/-- Count trailing zeros with fuel (only ever used on nonzero 32-bit masks,
matching `ws_ctz`). -/
def ctzAux : Nat → Nat → Nat
  | 0, _ => 0
  | fuel + 1, n => if n % 2 = 1 then 0 else ctzAux fuel (n / 2) + 1

def ws_ctz (n : Nat) : Nat := ctzAux 32 n

/-- `masked_guint16_value`: `(value & mask) >> ws_ctz(mask)`. -/
def masked_guint16_value (value mask : Nat) : Nat :=
  (value &&& mask) >>> ws_ctz mask

/-- `masked_guint32_value`: `(value & mask) >> ws_ctz(mask)`. -/
def masked_guint32_value (value mask : Nat) : Nat :=
  (value &&& mask) >>> ws_ctz mask

/-! ## Constants -/

def ISO15765_ADDR_INVALID : Nat := 0xffffffff
/-- Modelled from the spec: 29-bit extended CAN id mask (`packet-socketcan.h`,
outside `src/`); identifiers are masked by the extended/standard id width. -/
def CAN_EFF_MASK : Nat := 0x1fffffff
/-- Modelled from the spec: 11-bit standard CAN id mask (`packet-socketcan.h`). -/
def CAN_SFF_MASK : Nat := 0x7ff
/-- Modelled from the spec: extended-frame-format flag bit (`packet-socketcan.h`). -/
def CAN_EFF_FLAG : Nat := 0x80000000

def NORMAL_ADDRESSING : Nat := 1
def EXTENDED_ADDRESSING : Nat := 2

/-! ## Configuration (UAT rows and preferences) -/

/-- `config_can_addr_mapping_t`. -/
structure ConfigCanAddrMapping where
  extended_address : Bool
  can_id : Nat
  can_id_mask : Nat
  source_addr_mask : Nat
  target_addr_mask : Nat
  ecu_addr_mask : Nat
deriving DecidableEq

/-- `config_pdu_transport_config_t`. -/
structure ConfigPduTransportConfig where
  pdu_id : Nat
  source_address_size : Nat
  source_address_fixed : Nat
  target_address_size : Nat
  target_address_fixed : Nat
  ecu_address_size : Nat
  ecu_address_fixed : Nat
deriving DecidableEq

/-- The dissector preferences and configuration tables that
`dissect_iso15765` reads. -/
structure Config where
  addressing : Nat
  flexray_addressing : Nat
  flexray_segment_size_limit : Nat
  window : Nat
  ipdum_addressing : Nat
  can_mappings : List ConfigCanAddrMapping
  pdu_configs : List ConfigPduTransportConfig
deriving DecidableEq

/-! ## CAN-id address mapping (`find_config_can_addr_mapping`) -/

/-- The matching condition of the rule-scan loop (lines 355-362). -/
def canMappingMatches (ext_id : Bool) (can_id : Nat) (m : ConfigCanAddrMapping) : Bool :=
  m.extended_address == ext_id &&
    (m.can_id &&& m.can_id_mask) == (can_id &&& m.can_id_mask)

/-- `find_config_can_addr_mapping` (lines 346-378).  Takes the current
contents of the caller's `source_addr`/`target_addr` variables and returns
`(number_of_addresses_valid, source_addr, target_addr)`.  Note the C code
writes the address outputs only on a successful ECU or source+target match;
on no match they keep whatever value the caller had. -/
def find_config_can_addr_mapping (ext_id : Bool) (can_id : Nat)
    (mappings : List ConfigCanAddrMapping) (source_addr target_addr : Nat) :
    Nat × Nat × Nat :=
  match mappings.find? (canMappingMatches ext_id can_id) with
  | none => (0, source_addr, target_addr)
  | some tmp =>
    if tmp.ecu_addr_mask ≠ 0 then
      let v := masked_guint32_value can_id tmp.ecu_addr_mask
      (1, v, v)
    else if tmp.source_addr_mask ≠ 0 ∧ tmp.target_addr_mask ≠ 0 then
      (2, masked_guint32_value can_id tmp.source_addr_mask,
          masked_guint32_value can_id tmp.target_addr_mask)
    else
      (0, source_addr, target_addr)

/-! ## PDU-transport addressing (`handle_pdu_transport_addresses`) -/

/-- `find_pdu_transport_config` (lines 479-489). -/
def find_pdu_transport_config (items : List ConfigPduTransportConfig) (pdu_id : Nat) :
    Option ConfigPduTransportConfig :=
  items.find? (fun c => c.pdu_id == pdu_id)

/-- `handle_pdu_transport_addresses` (lines 491-545).  Returns
`(bytesConsumed, number_of_addresses_valid, source_address, target_address)`. -/
def handle_pdu_transport_addresses (items : List ConfigPduTransportConfig)
    (bytes : List Nat) (pdu_id : Nat) : Nat × Nat × Nat × Nat :=
  match find_pdu_transport_config items pdu_id with
  | none => (0, 0, ISO15765_ADDR_INVALID, ISO15765_ADDR_INVALID)
  | some config =>
    if config.ecu_address_size ≠ 0 then
      let tmp := tvbGetBE bytes 0 config.ecu_address_size
      (config.ecu_address_size, 1, tmp, tmp)
    else if config.ecu_address_fixed ≠ ISO15765_ADDR_INVALID then
      (0, 1, config.ecu_address_fixed, config.ecu_address_fixed)
    else if config.source_address_size = 0 ∧
        config.source_address_fixed = ISO15765_ADDR_INVALID ∧
        config.target_address_size = 0 ∧
        config.target_address_fixed = ISO15765_ADDR_INVALID then
      (0, 0, ISO15765_ADDR_INVALID, ISO15765_ADDR_INVALID)
    else
      let off1 := if config.source_address_size ≠ 0 then config.source_address_size else 0
      let src :=
        if config.source_address_size ≠ 0 then
          tvbGetBE bytes 0 config.source_address_size
        else if config.source_address_fixed ≠ ISO15765_ADDR_INVALID then
          config.source_address_fixed
        else
          ISO15765_ADDR_INVALID
      let off2 := if config.target_address_size ≠ 0 then config.target_address_size else 0
      let tgt :=
        if config.target_address_size ≠ 0 then
          tvbGetBE bytes off1 config.target_address_size
        else if config.target_address_fixed ≠ ISO15765_ADDR_INVALID then
          config.target_address_fixed
        else
          ISO15765_ADDR_INVALID
      (off1 + off2, 2, src, tgt)

/-! ## Data model of the reassembly engine -/

/-- The five link types handled by `dissect_iso15765` (`ISO15765_TYPE_*`
tags from `packet-iso15765.h`; only their identity matters here). -/
inductive BusType where
  | can
  | canFd
  | lin
  | flexray
  | ipdum
  | pduTransport
deriving DecidableEq

/-- `iso15765_identifier_t`: the per-frame cached assignment stored as
proto data on first pass and replayed afterwards. -/
structure IsoIdent where
  id : Nat
  seq : Nat
  frag_id : Nat
  last : Bool
deriving DecidableEq

/-- `iso15765_frame_t`: per-message reassembly bookkeeping, keyed by the
message sequence id in `iso15765_frame_table`.  `frag_id_high` is the list
of 16 per-low-nibble `guint8` wrap counters. -/
structure IsoFrame where
  seq : Nat
  offset : Nat
  len : Nat
  error : Bool
  complete : Bool
  last_frag_id : Nat
  frag_id_high : List Nat
deriving DecidableEq

/-- A link frame handed to `dissect_iso15765`: the frame number
(`pinfo->num`, identifying the frame across passes), the bus type and
numeric identifier supplied by the calling dissector, the frame bytes
(`tvb`), and the `frame_length` argument (e.g. `can_info.len`). -/
structure LinkFrame where
  num : Nat
  bus : BusType
  frameId : Nat
  bytes : List Nat
  frameLength : Nat
deriving DecidableEq

/-- Association-list lookup (models `wmem_map_lookup` / `p_get_proto_data`). -/
def alookup {α : Type} (l : List (Nat × α)) (k : Nat) : Option α :=
  (l.find? (fun p => p.1 == k)).map (fun p => p.2)

/-- Association-list update (models `wmem_map_insert` / heap mutation). -/
def aset {α : Type} (l : List (Nat × α)) (k : Nat) (v : α) : List (Nat × α) :=
  (k, v) :: l.eraseP (fun p => p.1 == k)

/-- Read one of the 16 `guint8` wrap counters (`frag_id_high[i]`). -/
def cnt (l : List Nat) (i : Nat) : Nat := l.getD i 0

/-- All mutable engine state: the static `msg_seqid` counter, the
`iso15765_frame_table`, the per-frame proto-data cache, and the state of
the external fragment-reassembly collaborator. -/
structure DState where
  msg_seqid : Nat
  frame_table : List (Nat × IsoFrame)
  proto_data : List (Nat × IsoIdent)
  reasm_acc : List (Nat × Nat)
  reasm_done : List (Nat × (Nat × Nat))
deriving DecidableEq

/-- Fresh analysis-session state. -/
def initState : DState := ⟨0, [], [], [], []⟩

/-- What one call to `dissect_iso15765` emits:
`submission` is the `(seq, frag_id, len, isLast)` tuple handed to
`fragment_add_seq_check` on a first pass, `reassembled` the completed
`(seq, totalLen)` message from `process_reassembled_data`, `nextTvb` a
non-reassembled dispatch (payload slice, complete flag), `ident` the final
per-frame cached assignment, then the resolved address triple, the
malformed-message-type expert error, and a `DISSECTOR_ASSERT` failure. -/
structure FrameResult where
  submission : Option (Nat × Nat × Nat × Bool)
  reassembled : Option (Nat × Nat)
  nextTvb : Option (List Nat × Bool)
  ident : IsoIdent
  valid : Nat
  srcAddr : Nat
  tgtAddr : Nat
  badType : Bool
  assertFailed : Bool
deriving DecidableEq

/-- The part of a frame's outcome computed before the final proto-data
write. -/
structure PartRes where
  submission : Option (Nat × Nat × Nat × Bool)
  reassembled : Option (Nat × Nat)
  nextTvb : Option (List Nat × Bool)
  badType : Bool
  assertFailed : Bool
deriving DecidableEq

def PartRes.none_ : PartRes := ⟨none, none, none, false, false⟩

/-! ## Address resolution inside `dissect_iso15765` (lines 583-620)

The `iso15765data` struct is stack-allocated and only
`number_of_addresses_valid` is initialised; `junkSrc`/`junkTgt` stand for
the arbitrary stack contents of the two address fields. -/

/-- Lines 583-620 of `dissect_iso15765`: computes the address-extension
size `ae` and the resolved `(valid, source, target)` triple. -/
def addrInfo (cfg : Config) (bus : BusType) (frameId : Nat) (bytes : List Nat)
    (junkSrc junkTgt : Nat) : Nat × Nat × Nat × Nat :=
  if bus = BusType.flexray then
    (2 * cfg.flexray_addressing, 2,
     tvbGetBE bytes 0 cfg.flexray_addressing % 65536,
     tvbGetBE bytes cfg.flexray_addressing cfg.flexray_addressing % 65536)
  else if bus = BusType.ipdum ∧ cfg.ipdum_addressing > 0 then
    (2 * cfg.ipdum_addressing, 2,
     tvbGetBE bytes 0 cfg.ipdum_addressing % 65536,
     tvbGetBE bytes cfg.ipdum_addressing cfg.ipdum_addressing % 65536)
  else if bus = BusType.pduTransport then
    handle_pdu_transport_addresses cfg.pdu_configs bytes frameId
  else
    -- LIN is always extended addressing
    let ae : Nat := if cfg.addressing = NORMAL_ADDRESSING ∧ bus ≠ BusType.lin then 0 else 1
    if ae ≠ 0 then
      let tmp := tvbGetBE bytes 0 ae % 65536
      (ae, 1, tmp, tmp)
    else if bus = BusType.can ∨ bus = BusType.canFd then
      let ext_id : Bool := frameId &&& CAN_EFF_FLAG == CAN_EFF_FLAG
      let can_id := if ext_id then frameId &&& CAN_EFF_MASK else frameId &&& CAN_SFF_MASK
      let r := find_config_can_addr_mapping ext_id can_id cfg.can_mappings junkSrc junkTgt
      (0, r.1, r.2.1, r.2.2)
    else
      (0, 0, junkSrc, junkTgt)

/-! ## Frame classification and the reassembly state machine -/

/-- FlexRay segment-size clamping (lines 661-664, 688-691, 762-765);
`hdr` is `offset - ae`.  The C subtraction is on `guint`, hence the
explicit `% 2^32`. -/
def clampFlexray (cfg : Config) (bus : BusType) (dl hdr : Nat) : Nat :=
  if bus = BusType.flexray ∧ cfg.flexray_segment_size_limit ≠ 0 then
    let bound := (cfg.flexray_segment_size_limit + 4294967296 - hdr) % 4294967296
    if dl > bound then bound else dl
  else dl

/-- The fragment block of `dissect_iso15765` (lines 795-865): sequence-id
lookup, wrap-counter expansion with the two `DISSECTOR_ASSERT`s, the
window check, accumulation/trimming, and the hand-off to the external
reassembly collaborator.  The collaborator itself (`fragment_add_seq_check`
and `process_reassembled_data`, `epan/reassemble.c`, not under `src/`) is
modelled from the spec: it buffers fragments keyed by
`(sequenceId, expandedFragmentId)`; assuming in-order arrival it
accumulates the submitted lengths and completes exactly once, when the
terminal-flagged fragment is submitted; on later passes it only looks up
the stored reassembly, which is attached to the frame that completed it.
`fragmentVisited` is the replay path (every engine mutation in the C code
is guarded by `!(pinfo->fd->visited)`), `fragmentFirstPass` the
first-observation path. -/
def fragmentVisited (f : LinkFrame) (s : DState) (ident : IsoIdent)
    (slice : List Nat) (fr : IsoFrame) : DState × IsoIdent × PartRes :=
  if fr.error then
    (s, ident, ⟨none, none, some (slice, false), false, false⟩)
  else
    match alookup s.reasm_done ident.seq with
    | some (n, total) =>
      if n = f.num then
        (s, ident, ⟨none, some (ident.seq, total), none, false, false⟩)
      else
        (s, ident, ⟨none, none, some (slice, false), false, false⟩)
    | none => (s, ident, ⟨none, none, some (slice, false), false, false⟩)

def fragmentFirstPass (cfg : Config) (f : LinkFrame) (s : DState) (ident : IsoIdent)
    (slice : List Nat) (dl frag_id_low : Nat) (fr : IsoFrame) :
    DState × IsoIdent × PartRes :=
  -- DISSECTOR_ASSERT(frag_id < 16)
  if frag_id_low ≥ 16 then
    (s, ident, ⟨none, none, none, false, true⟩)
  else
    -- guint16 tmp = iso15765_frame->frag_id_high[frag_id]++ (a guint8 counter)
    let tmp := cnt fr.frag_id_high frag_id_low
    let counters := fr.frag_id_high.set frag_id_low ((tmp + 1) % 256)
    let fr1 : IsoFrame :=
      ⟨fr.seq, fr.offset, fr.len, fr.error, fr.complete, fr.last_frag_id, counters⟩
    let s1 := { s with frame_table := aset s.frame_table ident.seq fr1 }
    -- DISSECTOR_ASSERT(iso15765_frame->frag_id_high[frag_id] != 0)
    if (tmp + 1) % 256 = 0 then
      (s1, ident, ⟨none, none, none, false, true⟩)
    else
      let fid := frag_id_low + tmp * 16
      let ident1 := { ident with frag_id := fid }
      -- window check sets the error flag; afterwards the code tests it
      let err2 : Bool := fr.error || decide (fid + cfg.window < fr.last_frag_id)
      let fr2 : IsoFrame :=
        ⟨fr.seq, fr.offset, fr.len, err2, fr.complete, fr.last_frag_id, counters⟩
      let s2 := { s1 with frame_table := aset s1.frame_table ident.seq fr2 }
      if err2 then
        (s2, ident1, ⟨none, none, some (slice, false), false, false⟩)
      else
        let newLast := if fid > fr.last_frag_id then fid else fr.last_frag_id
        let newOff := (fr.offset + dl) % 4294967296
        let fr4 : IsoFrame :=
          ⟨fr.seq, newOff, fr.len, fr.error,
           if newOff ≥ fr.len then true else fr.complete, newLast, counters⟩
        let ident2 := if newOff ≥ fr.len then { ident1 with last := true } else ident1
        let len :=
          if newOff ≥ fr.len then (dl + 4294967296 - (newOff - fr.len)) % 4294967296
          else dl
        let s3 := { s2 with frame_table := aset s2.frame_table ident.seq fr4 }
        let acc := (alookup s.reasm_acc ident.seq).getD 0 + len
        let s4 := { s3 with reasm_acc := aset s.reasm_acc ident.seq acc }
        let sub := some (ident.seq, fid, len, ident2.last)
        if ident2.last ∧ alookup s.reasm_done ident.seq = none then
          let s5 := { s4 with reasm_done := aset s.reasm_done ident.seq (f.num, acc) }
          (s5, ident2, ⟨sub, some (ident.seq, acc), none, false, false⟩)
        else
          (s4, ident2, ⟨sub, none, some (slice, false), false, false⟩)

def fragmentStep (cfg : Config) (visited : Bool) (f : LinkFrame) (s : DState)
    (ident : IsoIdent) (offset dl frag_id_low : Nat) :
    DState × IsoIdent × PartRes :=
  let slice := (f.bytes.drop offset).take dl
  match alookup s.frame_table ident.seq with
  | none => (s, ident, PartRes.none_)
  | some fr =>
    if visited then fragmentVisited f s ident slice fr
    else fragmentFirstPass cfg f s ident slice dl frag_id_low fr

/-- Common tail of the two First-Frame cases: allocate a fresh message
sequence on first pass (lines 669-676, 770-777) and enter the fragment
block with `frag_id_low = 0`. -/
def ffCommon (cfg : Config) (visited : Bool) (f : LinkFrame) (s : DState)
    (ident : IsoIdent) (full_len offset : Nat) (ae : Nat) :
    DState × IsoIdent × PartRes :=
  let dl := clampFlexray cfg f.bus (f.bytes.length - offset) (offset - ae)
  let sq := (s.msg_seqid + 1) % 4294967296
  let s1 :=
    if visited then s
    else
      { s with msg_seqid := sq,
               frame_table := aset s.frame_table sq
                 ⟨sq, 0, full_len, false, false, 0, List.replicate 16 0⟩ }
  let ident1 := if visited then ident else { ident with seq := sq }
  fragmentStep cfg visited f s1 ident1 offset dl 0

/-- The body of `dissect_iso15765` after address resolution: the
message-type switch (lines 622-787) followed by the fragment block. -/
def dissectBody (cfg : Config) (visited : Bool) (f : LinkFrame) (s : DState)
    (ident : IsoIdent) (ae : Nat) : DState × IsoIdent × PartRes :=
  let pci := tvbGet8 f.bytes ae
  let mt := masked_guint16_value pci 0xF0
  if mt = 0 then
    -- ISO15765_MESSAGE_TYPES_SINGLE_FRAME
    let fd_escape : Bool := f.frameLength > 8 && pci &&& 0x0F == 0
    let offset := if fd_escape then ae + 2 else ae + 1
    let dl := if fd_escape then tvbGet8 f.bytes (ae + 1) else pci &&& 0x0F
    (s, ident, ⟨none, none, some ((f.bytes.drop offset).take dl, true), false, false⟩)
  else if mt = 1 then
    -- ISO15765_MESSAGE_TYPES_FIRST_FRAME
    let pci16 := tvbGet16 f.bytes ae
    let full_len := if pci16 = 0x1000 then tvbGet32 f.bytes (ae + 2) else pci16 &&& 0xFFF
    let offset := if pci16 = 0x1000 then ae + 6 else ae + 2
    ffCommon cfg visited f s ident full_len offset ae
  else if mt = 2 ∨ mt = 6 then
    -- CONSECUTIVE_FRAME and FR_CONSECUTIVE_FRAME_2
    let offset := ae + 1
    let dl := clampFlexray cfg f.bus (f.bytes.length - offset) (offset - ae)
    let frag_id_low := masked_guint16_value pci 0x0F
    let ident1 := if visited then ident else { ident with seq := s.msg_seqid }
    fragmentStep cfg visited f s ident1 offset dl frag_id_low
  else if mt = 3 ∨ mt = 7 then
    -- FLOW_CONTROL and FR_ACK_FRAME: no payload, nothing dispatched
    (s, ident, PartRes.none_)
  else if mt = 4 then
    -- FR_SINGLE_FRAME_EXT
    let dl := tvbGet8 f.bytes (ae + 1)
    (s, ident, ⟨none, none, some ((f.bytes.drop (ae + 2)).take dl, true), false, false⟩)
  else if mt = 5 then
    -- FR_FIRST_FRAME_EXT
    ffCommon cfg visited f s ident (tvbGet32 f.bytes (ae + 1)) (ae + 5) ae
  else
    -- bad message type: expert info, return early
    (s, ident, ⟨none, none, none, true, false⟩)

/-- Final proto-data write: the identifier object is allocated and attached
on first observation and mutated in place afterwards (lines 571-578), so
storing an unchanged value is a no-op. -/
def writeIdent (s : DState) (num : Nat) (i : IsoIdent) : DState :=
  if alookup s.proto_data num = some i then s
  else { s with proto_data := aset s.proto_data num i }

/-- One call of `dissect_iso15765` on frame `f` in pass `visited`. -/
def dissect (cfg : Config) (visited : Bool) (junkSrc junkTgt : Nat)
    (f : LinkFrame) (s : DState) : DState × FrameResult :=
  let a := addrInfo cfg f.bus f.frameId f.bytes junkSrc junkTgt
  let ident0 := (alookup s.proto_data f.num).getD ⟨f.frameId, 0, 0, false⟩
  let r := dissectBody cfg visited f s ident0 a.1
  (writeIdent r.1 f.num r.2.1,
   ⟨r.2.2.submission, r.2.2.reassembled, r.2.2.nextTvb, r.2.1,
    a.2.1, a.2.2.1, a.2.2.2, r.2.2.badType, r.2.2.assertFailed⟩)

/-- Strictly sequential processing of an ordered frame stream. -/
def runStream (cfg : Config) (visited : Bool) (junkSrc junkTgt : Nat) :
    List LinkFrame → DState → DState × List FrameResult
  | [], s => (s, [])
  | f :: rest, s =>
    let d := dissect cfg visited junkSrc junkTgt f s
    let r := runStream cfg visited junkSrc junkTgt rest d.1
    (r.1, d.2 :: r.2)

/-! ## Concrete frame builders (used to state and test the claims) -/

/-- The default preferences: normal addressing, window 8, no FlexRay
cutoff, no configured tables. -/
def stdCfg : Config := ⟨NORMAL_ADDRESSING, 1, 0, 8, 0, [], []⟩

/-- A classic First Frame on CAN carrying a 12-bit length `len` in its
2-byte control word, followed by `payload`. -/
def mkFF (num fid len : Nat) (payload : List Nat) : LinkFrame :=
  ⟨num, BusType.can, fid, (16 + len / 256 % 16) :: (len % 256) :: payload, 8⟩

/-- A Consecutive Frame on CAN with sequence nibble `nib < 16` and
`payload`. -/
def mkCF (num fid nib : Nat) (payload : List Nat) : LinkFrame :=
  ⟨num, BusType.can, fid, (32 + nib) :: payload, 8⟩

/-- A Single Frame on CAN whose control byte is the low nibble
`ctrlLow < 16`, followed by `rest`, with physical frame length `flen`. -/
def mkSF (num fid ctrlLow : Nat) (rest : List Nat) (flen : Nat) : LinkFrame :=
  ⟨num, BusType.can, fid, ctrlLow :: rest, flen⟩

/-! ## Supporting lemmas: association lists -/

theorem alookup_cons {α : Type} (a : Nat × α) (l : List (Nat × α)) (k : Nat) :
    alookup (a :: l) k = if a.1 = k then some a.2 else alookup l k := by
  by_cases h : a.1 = k
  · simp [alookup, List.find?, h]
  · have hb : (a.1 == k) = false := by simp [h]
    simp [alookup, List.find?, hb, h]

theorem find?_eraseP_key_of_ne {α : Type} (l : List (Nat × α)) (k k' : Nat) (h : k' ≠ k) :
    (l.eraseP (fun p => p.1 == k)).find? (fun p => p.1 == k') =
      l.find? (fun p => p.1 == k') := by
  induction l with
  | nil => rfl
  | cons a l ih =>
    by_cases ha : a.1 = k
    · have hk : (a.1 == k) = true := by simp [ha]
      have hk' : (a.1 == k') = false := by simp [ha]; exact fun hc => h hc.symm
      simp [List.eraseP_cons, hk, List.find?, hk']
    · have hk : (a.1 == k) = false := by simp [ha]
      by_cases hq : a.1 = k'
      · have hk' : (a.1 == k') = true := by simp [hq]
        simp [List.eraseP_cons, hk, List.find?, hk']
      · have hk' : (a.1 == k') = false := by simp [hq]
        simp [List.eraseP_cons, hk, List.find?, hk', ih]

theorem alookup_aset_self {α : Type} (l : List (Nat × α)) (k : Nat) (v : α) :
    alookup (aset l k v) k = some v := by
  simp [alookup, aset, List.find?]

theorem cnt_set_self (l : List Nat) (i v : Nat) (h : i < l.length) :
    cnt (l.set i v) i = v := by
  simp [cnt, List.getD, h]

theorem alookup_aset_other {α : Type} (l : List (Nat × α)) (k k' : Nat) (v : α)
    (h : k' ≠ k) : alookup (aset l k v) k' = alookup l k' := by
  have hk : (k == k') = false := by simp; exact fun hc => h hc.symm
  simp only [alookup, aset, List.find?, hk]
  rw [find?_eraseP_key_of_ne _ _ _ h]

/-! ## Supporting lemmas: nibble and mask arithmetic -/

theorem masked_type_sf (x : Nat) (hx : x < 16) : masked_guint16_value x 0xF0 = 0 := by
  interval_cases x <;> decide

theorem masked_type_ff (x : Nat) (hx : x < 16) :
    masked_guint16_value (16 + x) 0xF0 = 1 := by
  interval_cases x <;> decide

theorem masked_type_cf (x : Nat) (hx : x < 16) :
    masked_guint16_value (32 + x) 0xF0 = 2 := by
  interval_cases x <;> decide

theorem masked_low_cf (x : Nat) (hx : x < 16) :
    masked_guint16_value (32 + x) 0x0F = x := by
  interval_cases x <;> decide

theorem and15_small (x : Nat) (hx : x < 16) : x &&& 0x0F = x := by
  interval_cases x <;> decide

/-! ## Supporting lemmas: address-extension size on plain CAN -/

theorem addrInfo_can_normal {cfg : Config} (h : cfg.addressing = NORMAL_ADDRESSING)
    (fid : Nat) (bytes : List Nat) (jS jT : Nat) :
    (addrInfo cfg BusType.can fid bytes jS jT).1 = 0 := by
  simp [addrInfo, h, NORMAL_ADDRESSING]

/-! ## Reduction lemmas: dissecting the frame builders -/

/-- On a plain CAN Consecutive Frame, `dissect` is the Consecutive-Frame
branch followed by the fragment block. -/
theorem dissect_mkCF (cfg : Config) (h : cfg.addressing = NORMAL_ADDRESSING)
    (jS jT num fid nib : Nat) (hn : nib < 16) (payload : List Nat)
    (visited : Bool) (s : DState) :
    dissect cfg visited jS jT (mkCF num fid nib payload) s =
      (let a := addrInfo cfg BusType.can fid ((32 + nib) :: payload) jS jT
       let ident0 := (alookup s.proto_data num).getD ⟨fid, 0, 0, false⟩
       let ident1 := if visited then ident0 else { ident0 with seq := s.msg_seqid }
       let r := fragmentStep cfg visited (mkCF num fid nib payload) s ident1 1
         payload.length nib
       (writeIdent r.1 num r.2.1,
        ⟨r.2.2.submission, r.2.2.reassembled, r.2.2.nextTvb, r.2.1,
         a.2.1, a.2.2.1, a.2.2.2, r.2.2.badType, r.2.2.assertFailed⟩)) := by
  have h8 : tvbGet8 ((32 + nib) :: payload) 0 = 32 + nib := by
    simp [tvbGet8, List.getD]; omega
  simp only [dissect, dissectBody, mkCF, addrInfo_can_normal h, h8,
    masked_type_cf nib hn, masked_low_cf nib hn, clampFlexray]
  simp

theorem writeIdent_msg_seqid (s : DState) (num : Nat) (i : IsoIdent) :
    (writeIdent s num i).msg_seqid = s.msg_seqid := by
  unfold writeIdent; split <;> rfl

theorem writeIdent_frame_table (s : DState) (num : Nat) (i : IsoIdent) :
    (writeIdent s num i).frame_table = s.frame_table := by
  unfold writeIdent; split <;> rfl

theorem writeIdent_reasm_acc (s : DState) (num : Nat) (i : IsoIdent) :
    (writeIdent s num i).reasm_acc = s.reasm_acc := by
  unfold writeIdent; split <;> rfl

theorem writeIdent_reasm_done (s : DState) (num : Nat) (i : IsoIdent) :
    (writeIdent s num i).reasm_done = s.reasm_done := by
  unfold writeIdent; split <;> rfl

theorem alookup_writeIdent_self (s : DState) (num : Nat) (i : IsoIdent) :
    alookup (writeIdent s num i).proto_data num = some i := by
  unfold writeIdent
  split
  · assumption
  · exact alookup_aset_self _ _ _

theorem alookup_writeIdent_other (s : DState) (num k : Nat) (i : IsoIdent)
    (h : k ≠ num) : alookup (writeIdent s num i).proto_data k = alookup s.proto_data k := by
  unfold writeIdent
  split
  · rfl
  · exact alookup_aset_other _ _ _ _ h

theorem fragmentStep_none (cfg : Config) (visited : Bool) (f : LinkFrame)
    (s : DState) (ident : IsoIdent) (offset dl low : Nat)
    (h : alookup s.frame_table ident.seq = none) :
    fragmentStep cfg visited f s ident offset dl low = (s, ident, PartRes.none_) := by
  unfold fragmentStep
  rw [h]

theorem fragmentStep_visited (cfg : Config) (f : LinkFrame)
    (s : DState) (ident : IsoIdent) (offset dl low : Nat) (fr : IsoFrame)
    (h : alookup s.frame_table ident.seq = some fr) :
    fragmentStep cfg true f s ident offset dl low =
      fragmentVisited f s ident ((f.bytes.drop offset).take dl) fr := by
  unfold fragmentStep
  rw [h]
  simp

theorem fragmentStep_first (cfg : Config) (f : LinkFrame)
    (s : DState) (ident : IsoIdent) (offset dl low : Nat) (fr : IsoFrame)
    (h : alookup s.frame_table ident.seq = some fr) :
    fragmentStep cfg false f s ident offset dl low =
      fragmentFirstPass cfg f s ident ((f.bytes.drop offset).take dl) dl low fr := by
  unfold fragmentStep
  rw [h]
  simp

/-! ## Characterization of first-pass Consecutive-Frame processing -/

theorem runStream_length (cfg : Config) (v : Bool) (jS jT : Nat) :
    ∀ (frames : List LinkFrame) (s : DState),
      (runStream cfg v jS jT frames s).2.length = frames.length
  | [], _ => rfl
  | f :: rest, s => by
    simp [runStream, runStream_length cfg v jS jT rest]

/-- A first-pass Consecutive Frame is always bound to the current value of
the static `msg_seqid` counter. -/
theorem cfStep_seq (cfg : Config) (h : cfg.addressing = NORMAL_ADDRESSING)
    (jS jT num fid nib : Nat) (hn : nib < 16) (payload : List Nat) (s : DState) :
    (dissect cfg false jS jT (mkCF num fid nib payload) s).2.ident.seq = s.msg_seqid := by
  rw [dissect_mkCF cfg h jS jT num fid nib hn payload false s]
  simp only [Bool.false_eq_true, if_false]
  rcases hl : alookup s.frame_table s.msg_seqid with _ | fr
  · rw [fragmentStep_none cfg false _ s _ 1 payload.length nib hl]
  · rw [fragmentStep_first cfg _ s _ 1 payload.length nib fr hl]
    simp only [fragmentFirstPass]
    split_ifs <;> simp

/-- An orphaned Consecutive Frame (no table entry under the bound sequence
id) is dropped silently: no submission, no dispatch, no error, and no
reassembly-state change. -/
theorem cfStep_orphan (cfg : Config) (h : cfg.addressing = NORMAL_ADDRESSING)
    (jS jT num fid nib : Nat) (hn : nib < 16) (payload : List Nat) (s : DState)
    (hl : alookup s.frame_table s.msg_seqid = none) :
    (dissect cfg false jS jT (mkCF num fid nib payload) s).1.msg_seqid = s.msg_seqid
    ∧ (dissect cfg false jS jT (mkCF num fid nib payload) s).1.frame_table = s.frame_table
    ∧ (dissect cfg false jS jT (mkCF num fid nib payload) s).1.reasm_acc = s.reasm_acc
    ∧ (dissect cfg false jS jT (mkCF num fid nib payload) s).1.reasm_done = s.reasm_done
    ∧ (dissect cfg false jS jT (mkCF num fid nib payload) s).2.submission = none
    ∧ (dissect cfg false jS jT (mkCF num fid nib payload) s).2.reassembled = none
    ∧ (dissect cfg false jS jT (mkCF num fid nib payload) s).2.nextTvb = none
    ∧ (dissect cfg false jS jT (mkCF num fid nib payload) s).2.badType = false
    ∧ (dissect cfg false jS jT (mkCF num fid nib payload) s).2.assertFailed = false := by
  rw [dissect_mkCF cfg h jS jT num fid nib hn payload false s]
  simp only [Bool.false_eq_true, if_false]
  rw [fragmentStep_none cfg false _ s _ 1 payload.length nib hl]
  simp [writeIdent_msg_seqid, writeIdent_frame_table, writeIdent_reasm_acc,
    writeIdent_reasm_done, PartRes.none_]

/-- Wrap-counter expansion: a first-pass Consecutive Frame is assigned
expanded fragment id `nibble + 16 * wrapCount[nibble]`, and the counter is
bumped, whatever else happens (error flag, completion). -/
theorem cfStep_fragId_counter (cfg : Config) (h : cfg.addressing = NORMAL_ADDRESSING)
    (jS jT num fid nib : Nat) (hn : nib < 16) (payload : List Nat) (s : DState)
    (hident : alookup s.proto_data num = none)
    (fr : IsoFrame) (hfr : alookup s.frame_table s.msg_seqid = some fr)
    (hlen : fr.frag_id_high.length = 16)
    (hc : cnt fr.frag_id_high nib < 255) :
    (dissect cfg false jS jT (mkCF num fid nib payload) s).2.ident.frag_id
        = nib + 16 * cnt fr.frag_id_high nib
    ∧ (alookup (dissect cfg false jS jT (mkCF num fid nib payload) s).1.frame_table
        s.msg_seqid).map (fun g => cnt g.frag_id_high nib)
        = some (cnt fr.frag_id_high nib + 1) := by
  have hlt : nib < fr.frag_id_high.length := by omega
  have hset : cnt (fr.frag_id_high.set nib (cnt fr.frag_id_high nib + 1)) nib
      = cnt fr.frag_id_high nib + 1 := cnt_set_self _ _ _ hlt
  have hmod : (cnt fr.frag_id_high nib + 1) % 256 = cnt fr.frag_id_high nib + 1 := by
    omega
  rw [dissect_mkCF cfg h jS jT num fid nib hn payload false s]
  simp only [Bool.false_eq_true, if_false, hident, Option.getD_none]
  rw [fragmentStep_first cfg _ s _ 1 payload.length nib fr hfr]
  simp only [fragmentFirstPass]
  rw [if_neg (by omega : ¬ nib ≥ 16)]
  rw [hmod]
  rw [if_neg (by omega : ¬ (cnt fr.frag_id_high nib + 1) = 0)]
  by_cases he : (fr.error ||
      decide (nib + cnt fr.frag_id_high nib * 16 + cfg.window < fr.last_frag_id)) = true
  · rw [if_pos he]
    refine ⟨by simp [Nat.mul_comm], ?_⟩
    simp only [writeIdent_frame_table]
    rw [alookup_aset_self]
    simp [hset]
  · rw [if_neg he]
    by_cases hl2 : (fr.offset + payload.length) % 4294967296 ≥ fr.len
    · rw [if_pos hl2, if_pos hl2]
      by_cases hd : alookup s.reasm_done s.msg_seqid = none
      · rw [if_pos (by simp [hd])]
        refine ⟨by simp [Nat.mul_comm], ?_⟩
        simp only [writeIdent_frame_table]
        rw [alookup_aset_self]
        simp [hset]
      · rw [if_neg (by simp [hd])]
        refine ⟨by simp [Nat.mul_comm], ?_⟩
        simp only [writeIdent_frame_table]
        rw [alookup_aset_self]
        simp [hset]
    · rw [if_neg hl2]
      rw [if_neg (by simp)]
      refine ⟨by simp [Nat.mul_comm], ?_⟩
      simp only [writeIdent_frame_table]
      rw [alookup_aset_self]
      simp [hset]

/-- Window-error path: when the sequence is already errored, or this
fragment violates the window check, the wrap counter is still bumped but
nothing is submitted or dispatched and the entry is frozen apart from the
error flag and counters. -/
theorem cfStep_errored (cfg : Config) (h : cfg.addressing = NORMAL_ADDRESSING)
    (jS jT num fid nib : Nat) (hn : nib < 16) (payload : List Nat) (s : DState)
    (hident : alookup s.proto_data num = none)
    (fr : IsoFrame) (hfr : alookup s.frame_table s.msg_seqid = some fr)
    (hc : cnt fr.frag_id_high nib < 255)
    (he : fr.error = true ∨
      nib + 16 * cnt fr.frag_id_high nib + cfg.window < fr.last_frag_id) :
    (dissect cfg false jS jT (mkCF num fid nib payload) s).2.submission = none
    ∧ (dissect cfg false jS jT (mkCF num fid nib payload) s).2.reassembled = none
    ∧ alookup (dissect cfg false jS jT (mkCF num fid nib payload) s).1.frame_table
        s.msg_seqid =
      some ⟨fr.seq, fr.offset, fr.len, true, fr.complete, fr.last_frag_id,
            fr.frag_id_high.set nib (cnt fr.frag_id_high nib + 1)⟩
    ∧ (dissect cfg false jS jT (mkCF num fid nib payload) s).1.reasm_acc = s.reasm_acc
    ∧ (dissect cfg false jS jT (mkCF num fid nib payload) s).1.reasm_done = s.reasm_done
    ∧ (dissect cfg false jS jT (mkCF num fid nib payload) s).1.msg_seqid = s.msg_seqid := by
  have hmod : (cnt fr.frag_id_high nib + 1) % 256 = cnt fr.frag_id_high nib + 1 := by
    omega
  have he2 : (fr.error ||
      decide (nib + cnt fr.frag_id_high nib * 16 + cfg.window < fr.last_frag_id)) = true := by
    rcases he with h1 | h1
    · simp [h1]
    · have : nib + cnt fr.frag_id_high nib * 16 + cfg.window < fr.last_frag_id := by omega
      simp [this]
  rw [dissect_mkCF cfg h jS jT num fid nib hn payload false s]
  simp only [Bool.false_eq_true, if_false, hident, Option.getD_none]
  rw [fragmentStep_first cfg _ s _ 1 payload.length nib fr hfr]
  simp only [fragmentFirstPass]
  rw [if_neg (by omega : ¬ nib ≥ 16)]
  rw [hmod]
  rw [if_neg (by omega : ¬ (cnt fr.frag_id_high nib + 1) = 0)]
  rw [if_pos he2]
  refine ⟨by simp, by simp, ?_, by simp [writeIdent_reasm_acc],
    by simp [writeIdent_reasm_done], by simp [writeIdent_msg_seqid]⟩
  simp only [writeIdent_frame_table]
  rw [alookup_aset_self]
  simp [he2]

/-- Incorporation path: with an open, unerrored sequence and no window
violation, the fragment's bytes are handed to the reassembly collaborator;
when the accumulated count first reaches the expected length the fragment
is trimmed to the exact remainder, flagged terminal, the sequence is
completed, and (exactly once) a reassembled message of the declared length
is produced. -/
theorem cfStep_incorporate (cfg : Config) (h : cfg.addressing = NORMAL_ADDRESSING)
    (jS jT num fid nib : Nat) (hn : nib < 16) (payload : List Nat) (s : DState)
    (hident : alookup s.proto_data num = none)
    (fr : IsoFrame) (hfr : alookup s.frame_table s.msg_seqid = some fr)
    (hc : cnt fr.frag_id_high nib < 255)
    (herr : fr.error = false)
    (hw : ¬ nib + 16 * cnt fr.frag_id_high nib + cfg.window < fr.last_frag_id)
    (hb : fr.offset + payload.length < 4294967296)
    (hacc : (alookup s.reasm_acc s.msg_seqid).getD 0 = fr.offset)
    (hoff : fr.offset < fr.len) :
    (fr.len ≤ fr.offset + payload.length ∧ alookup s.reasm_done s.msg_seqid = none →
       (dissect cfg false jS jT (mkCF num fid nib payload) s).2.submission
         = some (s.msg_seqid, nib + 16 * cnt fr.frag_id_high nib,
                 fr.len - fr.offset, true)
       ∧ (dissect cfg false jS jT (mkCF num fid nib payload) s).2.ident.last = true
       ∧ (alookup (dissect cfg false jS jT (mkCF num fid nib payload) s).1.frame_table
           s.msg_seqid).map IsoFrame.complete = some true
       ∧ (dissect cfg false jS jT (mkCF num fid nib payload) s).2.reassembled
         = some (s.msg_seqid, fr.len))
    ∧ (fr.len ≤ fr.offset + payload.length ∧ (alookup s.reasm_done s.msg_seqid).isSome →
       (dissect cfg false jS jT (mkCF num fid nib payload) s).2.reassembled = none)
    ∧ (fr.offset + payload.length < fr.len →
       (dissect cfg false jS jT (mkCF num fid nib payload) s).2.submission
         = some (s.msg_seqid, nib + 16 * cnt fr.frag_id_high nib, payload.length, false)
       ∧ (dissect cfg false jS jT (mkCF num fid nib payload) s).2.ident.last = false
       ∧ (alookup (dissect cfg false jS jT (mkCF num fid nib payload) s).1.frame_table
           s.msg_seqid).map IsoFrame.complete = some fr.complete
       ∧ (dissect cfg false jS jT (mkCF num fid nib payload) s).2.reassembled = none) := by
  have hmod : (cnt fr.frag_id_high nib + 1) % 256 = cnt fr.frag_id_high nib + 1 := by
    omega
  have hmodoff : (fr.offset + payload.length) % 4294967296 = fr.offset + payload.length := by
    omega
  have hP : ¬ nib + cnt fr.frag_id_high nib * 16 + cfg.window < fr.last_frag_id := by
    omega
  have he2 : ¬ ((fr.error ||
      decide (nib + cnt fr.frag_id_high nib * 16 + cfg.window < fr.last_frag_id)) = true) := by
    simp [herr, hP]
  rw [dissect_mkCF cfg h jS jT num fid nib hn payload false s]
  simp only [Bool.false_eq_true, if_false, hident, Option.getD_none]
  rw [fragmentStep_first cfg _ s _ 1 payload.length nib fr hfr]
  simp only [fragmentFirstPass]
  rw [if_neg (by omega : ¬ nib ≥ 16)]
  rw [hmod]
  rw [if_neg (by omega : ¬ (cnt fr.frag_id_high nib + 1) = 0)]
  rw [if_neg he2]
  rw [hmodoff]
  refine ⟨?_, ?_, ?_⟩
  · rintro ⟨hreach, hdone⟩
    have hge : fr.offset + payload.length ≥ fr.len := hreach
    have hlen' : (payload.length + 4294967296 - (fr.offset + payload.length - fr.len))
        % 4294967296 = fr.len - fr.offset := by omega
    have hfin : (alookup s.reasm_acc s.msg_seqid).getD 0 + (fr.len - fr.offset) = fr.len := by
      omega
    simp only [if_pos hge, hlen']
    rw [if_pos (by simp [hdone])]
    refine ⟨by simp [Nat.mul_comm], by simp, ?_, by simp [hfin]⟩
    simp only [writeIdent_frame_table]
    rw [alookup_aset_self]
    simp
  · rintro ⟨hreach, hdset⟩
    have hge : fr.offset + payload.length ≥ fr.len := hreach
    simp only [if_pos hge]
    rw [if_neg (by simp [Option.isSome_iff_ne_none] at hdset; simp [hdset])]
  · intro hunder
    have hge : ¬ fr.offset + payload.length ≥ fr.len := by omega
    simp only [if_neg hge]
    rw [if_neg (by simp)]
    refine ⟨by simp [Nat.mul_comm], by simp, ?_, by simp⟩
    simp only [writeIdent_frame_table]
    rw [alookup_aset_self]
    simp

/-- Wrap-counter overflow: a fragment whose nibble counter sits at 255
aborts with a dissector assertion; nothing is submitted or dispatched, no
expanded id is produced, and every other sequence and the global counter
are untouched. -/
theorem cfStep_assert (cfg : Config) (h : cfg.addressing = NORMAL_ADDRESSING)
    (jS jT num fid nib : Nat) (hn : nib < 16) (payload : List Nat) (s : DState)
    (hident : alookup s.proto_data num = none)
    (fr : IsoFrame) (hfr : alookup s.frame_table s.msg_seqid = some fr)
    (hc : cnt fr.frag_id_high nib = 255) :
    (dissect cfg false jS jT (mkCF num fid nib payload) s).2.assertFailed = true
    ∧ (dissect cfg false jS jT (mkCF num fid nib payload) s).2.submission = none
    ∧ (dissect cfg false jS jT (mkCF num fid nib payload) s).2.reassembled = none
    ∧ (dissect cfg false jS jT (mkCF num fid nib payload) s).2.nextTvb = none
    ∧ (dissect cfg false jS jT (mkCF num fid nib payload) s).1.msg_seqid = s.msg_seqid
    ∧ (∀ q, q ≠ s.msg_seqid →
        alookup (dissect cfg false jS jT (mkCF num fid nib payload) s).1.frame_table q
          = alookup s.frame_table q)
    ∧ (dissect cfg false jS jT (mkCF num fid nib payload) s).1.reasm_acc = s.reasm_acc
    ∧ (dissect cfg false jS jT (mkCF num fid nib payload) s).1.reasm_done = s.reasm_done
    ∧ (dissect cfg false jS jT (mkCF num fid nib payload) s).2.ident.frag_id = 0 := by
  rw [dissect_mkCF cfg h jS jT num fid nib hn payload false s]
  simp only [Bool.false_eq_true, if_false, hident, Option.getD_none]
  rw [fragmentStep_first cfg _ s _ 1 payload.length nib fr hfr]
  simp only [fragmentFirstPass]
  rw [if_neg (by omega : ¬ nib ≥ 16)]
  rw [hc]
  rw [if_pos (by norm_num : (255 + 1) % 256 = 0)]
  refine ⟨by simp, by simp, by simp, by simp, by simp [writeIdent_msg_seqid], ?_,
    by simp [writeIdent_reasm_acc], by simp [writeIdent_reasm_done], by simp⟩
  intro q hq
  simp only [writeIdent_frame_table]
  exact alookup_aset_other _ _ _ _ hq

/-! ## Characterization of First-Frame and Single-Frame processing -/

/-- On a plain CAN First Frame with a nonzero 12-bit length, `dissect` is
the First-Frame branch: length from the control word, payload at offset 2. -/
theorem dissect_mkFF (cfg : Config) (h : cfg.addressing = NORMAL_ADDRESSING)
    (jS jT num fid len : Nat) (hl1 : len ≠ 0) (hl2 : len < 4096) (payload : List Nat)
    (visited : Bool) (s : DState) :
    dissect cfg visited jS jT (mkFF num fid len payload) s =
      (let a := addrInfo cfg BusType.can fid
         ((16 + len / 256 % 16) :: (len % 256) :: payload) jS jT
       let ident0 := (alookup s.proto_data num).getD ⟨fid, 0, 0, false⟩
       let r := ffCommon cfg visited (mkFF num fid len payload) s ident0 len 2 0
       (writeIdent r.1 num r.2.1,
        ⟨r.2.2.submission, r.2.2.reassembled, r.2.2.nextTvb, r.2.1,
         a.2.1, a.2.2.1, a.2.2.2, r.2.2.badType, r.2.2.assertFailed⟩)) := by
  have hx : len / 256 % 16 < 16 := Nat.mod_lt _ (by norm_num)
  have hp8 : tvbGet8 ((16 + len / 256 % 16) :: (len % 256) :: payload) 0
      = 16 + len / 256 % 16 := by
    simp [tvbGet8, List.getD]; omega
  have hpci16 : tvbGet16 ((16 + len / 256 % 16) :: (len % 256) :: payload) 0
      = 4096 + len := by
    simp [tvbGet16, tvbGet8, List.getD]; omega
  have hfull : (4096 + len) &&& 4095 = len := by
    have h12 := Nat.and_pow_two_sub_one_eq_mod (4096 + len) 12
    norm_num at h12
    rw [h12]
    omega
  simp only [dissect, dissectBody, mkFF, addrInfo_can_normal h, hp8,
    masked_type_ff _ hx]
  rw [hpci16]
  rw [if_neg (by omega : ¬ (4096 + len = 4096))]
  rw [hfull]
  simp [hl1]

/-- A first-pass First Frame allocates a fresh sequence and submits itself
with expanded fragment id 0, consuming one occurrence of wrap counter 0. -/
theorem ffStep_allocates (cfg : Config) (h : cfg.addressing = NORMAL_ADDRESSING)
    (jS jT num fid len : Nat) (hl1 : len ≠ 0) (hl2 : len < 4096) (payload : List Nat)
    (s : DState) (hident : alookup s.proto_data num = none) :
    ((dissect cfg false jS jT (mkFF num fid len payload) s).2.submission.map
        (fun t => (t.1, t.2.1))) = some ((s.msg_seqid + 1) % 4294967296, 0)
    ∧ (alookup (dissect cfg false jS jT (mkFF num fid len payload) s).1.frame_table
        ((s.msg_seqid + 1) % 4294967296)).map (fun g => cnt g.frag_id_high 0) = some 1
    ∧ (dissect cfg false jS jT (mkFF num fid len payload) s).2.ident.frag_id = 0
    ∧ (dissect cfg false jS jT (mkFF num fid len payload) s).2.ident.seq
        = (s.msg_seqid + 1) % 4294967296
    ∧ (dissect cfg false jS jT (mkFF num fid len payload) s).1.msg_seqid
        = (s.msg_seqid + 1) % 4294967296 := by
  have hc0 : cnt (List.replicate 16 0) 0 = 0 := rfl
  have hc1 : cnt ((List.replicate 16 0).set 0 ((0 + 1) % 256)) 0 = 1 := rfl
  rw [dissect_mkFF cfg h jS jT num fid len hl1 hl2 payload false s]
  simp only [ffCommon, Bool.false_eq_true, if_false, hident, Option.getD_none, mkFF,
    List.length_cons]
  have hclamp : clampFlexray cfg BusType.can (payload.length + 1 + 1 - 2) (2 - 0)
      = payload.length := by
    simp [clampFlexray]
  rw [hclamp]
  rw [fragmentStep_first cfg _ _ _ 2 payload.length 0
    ⟨(s.msg_seqid + 1) % 4294967296, 0, len, false, false, 0, List.replicate 16 0⟩
    (alookup_aset_self _ _ _)]
  simp only [fragmentFirstPass]
  rw [if_neg (by omega : ¬ (0 : Nat) ≥ 16)]
  rw [hc0]
  rw [if_neg (by norm_num : ¬ (0 + 1) % 256 = 0)]
  rw [if_neg (by simp : ¬ ((false : Bool) ||
    decide (0 + 0 * 16 + cfg.window < 0)) = true)]
  have hc2 : cnt [1, 0, 0, 0, 0, 0, 0, 0, 0, 0, 0, 0, 0, 0, 0, 0] 0 = 1 := rfl
  split_ifs <;>
    simp [writeIdent_msg_seqid, writeIdent_frame_table, alookup_aset_self, hc1, hc2]

/-- Single-Frame classification on plain CAN: a nonzero low nibble
`L ∈ [1,7]` is the payload length and the payload starts right after the
control byte; low nibble 0 with physical length above 8 reads the explicit
length byte instead. -/
theorem sfStep (cfg : Config) (h : cfg.addressing = NORMAL_ADDRESSING)
    (jS jT num fid : Nat) (rest : List Nat) (s : DState) (visited : Bool) :
    (∀ L flen, 1 ≤ L → L ≤ 7 →
       (dissect cfg visited jS jT (mkSF num fid L rest flen) s).2.nextTvb
         = some (rest.take L, true))
    ∧ (∀ flen lb, flen > 8 → lb < 256 →
       (dissect cfg visited jS jT (mkSF num fid 0 (lb :: rest) flen) s).2.nextTvb
         = some (rest.take lb, true)) := by
  constructor
  · intro L flen h1 h7
    have hn : L < 16 := by omega
    have hp8 : tvbGet8 (L :: rest) 0 = L := by
      simp [tvbGet8, List.getD]; omega
    simp only [dissect, dissectBody, mkSF, addrInfo_can_normal h, hp8,
      masked_type_sf _ hn, and15_small _ hn]
    simp only [if_neg (show ¬ ((decide (flen > 8) && (L == 0)) = true) by
      simp; intro _; omega)]
    simp
  · intro flen lb h8 hlb
    have hp8 : tvbGet8 (0 :: lb :: rest) 0 = 0 := by
      simp [tvbGet8, List.getD]
    have hp1 : tvbGet8 (0 :: lb :: rest) 1 = lb := by
      simp [tvbGet8, List.getD]; omega
    simp only [dissect, dissectBody, mkSF, addrInfo_can_normal h, hp8,
      masked_type_sf 0 (by norm_num), hp1]
    simp only [if_pos (show ((decide (flen > 8) && ((0 : Nat) &&& 15 == 0)) = true) by
      simp; omega)]
    simp

/-! ## Replay discipline: visited passes never mutate engine state -/

theorem fragmentVisited_state (f : LinkFrame) (s : DState) (ident : IsoIdent)
    (slice : List Nat) (fr : IsoFrame) :
    (fragmentVisited f s ident slice fr).1 = s := by
  unfold fragmentVisited
  by_cases hfe : fr.error = true
  · simp [hfe]
  · rw [if_neg hfe]
    split
    · split_ifs <;> rfl
    · rfl

theorem fragmentVisited_ident (f : LinkFrame) (s : DState) (ident : IsoIdent)
    (slice : List Nat) (fr : IsoFrame) :
    (fragmentVisited f s ident slice fr).2.1 = ident := by
  unfold fragmentVisited
  by_cases hfe : fr.error = true
  · simp [hfe]
  · rw [if_neg hfe]
    split
    · split_ifs <;> rfl
    · rfl

theorem fragmentFirstPass_proto (cfg : Config) (f : LinkFrame) (s : DState)
    (ident : IsoIdent) (slice : List Nat) (dl low : Nat) (fr : IsoFrame) :
    (fragmentFirstPass cfg f s ident slice dl low fr).1.proto_data = s.proto_data := by
  simp only [fragmentFirstPass]
  split_ifs <;> rfl

theorem fragmentStep_proto (cfg : Config) (visited : Bool) (f : LinkFrame) (s : DState)
    (ident : IsoIdent) (offset dl low : Nat) :
    (fragmentStep cfg visited f s ident offset dl low).1.proto_data = s.proto_data := by
  rcases hl : alookup s.frame_table ident.seq with _ | fr
  · rw [fragmentStep_none cfg visited f s ident offset dl low hl]
  · cases visited
    · rw [fragmentStep_first cfg f s ident offset dl low fr hl]
      exact fragmentFirstPass_proto cfg f s ident _ dl low fr
    · rw [fragmentStep_visited cfg f s ident offset dl low fr hl]
      rw [fragmentVisited_state f s ident _ fr]

theorem fragmentStep_visited_pure (cfg : Config) (f : LinkFrame) (s : DState)
    (ident : IsoIdent) (offset dl low : Nat) :
    (fragmentStep cfg true f s ident offset dl low).1 = s
    ∧ (fragmentStep cfg true f s ident offset dl low).2.1 = ident := by
  rcases hl : alookup s.frame_table ident.seq with _ | fr
  · rw [fragmentStep_none cfg true f s ident offset dl low hl]
    exact ⟨rfl, rfl⟩
  · rw [fragmentStep_visited cfg f s ident offset dl low fr hl]
    exact ⟨fragmentVisited_state f s ident _ fr, fragmentVisited_ident f s ident _ fr⟩

theorem ffCommon_proto (cfg : Config) (visited : Bool) (f : LinkFrame) (s : DState)
    (ident : IsoIdent) (full_len offset ae : Nat) :
    (ffCommon cfg visited f s ident full_len offset ae).1.proto_data = s.proto_data := by
  cases visited
  · simp only [ffCommon, Bool.false_eq_true, if_false]
    rw [fragmentStep_proto]
  · simp only [ffCommon, reduceIte]
    rw [fragmentStep_proto]

theorem ffCommon_visited_pure (cfg : Config) (f : LinkFrame) (s : DState)
    (ident : IsoIdent) (full_len offset ae : Nat) :
    (ffCommon cfg true f s ident full_len offset ae).1 = s
    ∧ (ffCommon cfg true f s ident full_len offset ae).2.1 = ident := by
  simp only [ffCommon, reduceIte]
  exact fragmentStep_visited_pure cfg f s ident offset _ 0

theorem dissectBody_proto (cfg : Config) (visited : Bool) (f : LinkFrame) (s : DState)
    (ident : IsoIdent) (ae : Nat) :
    (dissectBody cfg visited f s ident ae).1.proto_data = s.proto_data := by
  simp only [dissectBody]
  split_ifs <;>
    first
      | rfl
      | apply ffCommon_proto
      | apply fragmentStep_proto

theorem dissectBody_visited_pure (cfg : Config) (f : LinkFrame) (s : DState)
    (ident : IsoIdent) (ae : Nat) :
    (dissectBody cfg true f s ident ae).1 = s
    ∧ (dissectBody cfg true f s ident ae).2.1 = ident := by
  simp only [dissectBody, reduceIte]
  split_ifs <;>
    first
      | exact ⟨rfl, rfl⟩
      | exact ffCommon_visited_pure cfg f s ident _ _ _
      | exact fragmentStep_visited_pure cfg f s ident _ _ _

theorem dissect_proto_other (cfg : Config) (visited : Bool) (jS jT : Nat)
    (f : LinkFrame) (s : DState) (k : Nat) (hk : k ≠ f.num) :
    alookup (dissect cfg visited jS jT f s).1.proto_data k = alookup s.proto_data k := by
  simp only [dissect]
  rw [alookup_writeIdent_other _ _ _ _ hk]
  rw [dissectBody_proto]

theorem dissect_writes_ident (cfg : Config) (visited : Bool) (jS jT : Nat)
    (f : LinkFrame) (s : DState) :
    alookup (dissect cfg visited jS jT f s).1.proto_data f.num
      = some ((dissect cfg visited jS jT f s).2.ident) := by
  simp only [dissect]
  exact alookup_writeIdent_self _ _ _

theorem dissect_visited_pure (cfg : Config) (jS jT : Nat) (f : LinkFrame) (s : DState)
    (i : IsoIdent) (hi : alookup s.proto_data f.num = some i) :
    (dissect cfg true jS jT f s).1 = s ∧ (dissect cfg true jS jT f s).2.ident = i := by
  have h2 := dissectBody_visited_pure cfg f s
    ((alookup s.proto_data f.num).getD ⟨f.frameId, 0, 0, false⟩)
    (addrInfo cfg f.bus f.frameId f.bytes jS jT).1
  have hi' : (alookup s.proto_data f.num).getD (⟨f.frameId, 0, 0, false⟩ : IsoIdent) = i := by
    rw [hi]; rfl
  simp only [dissect]
  constructor
  · rw [h2.1, h2.2, hi']
    unfold writeIdent
    rw [if_pos hi]
  · rw [h2.2, hi']

theorem runStream_proto_other (cfg : Config) (v : Bool) (jS jT : Nat) :
    ∀ (frames : List LinkFrame) (s : DState) (k : Nat),
      (∀ f ∈ frames, k ≠ f.num) →
      alookup (runStream cfg v jS jT frames s).1.proto_data k = alookup s.proto_data k
  | [], _, _, _ => rfl
  | f :: rest, s, k, hk => by
    simp only [runStream]
    rw [runStream_proto_other cfg v jS jT rest _ k
      (fun g hg => hk g (List.mem_cons_of_mem f hg))]
    exact dissect_proto_other cfg v jS jT f s k (hk f (List.mem_cons_self f rest))

/-- Replaying an ordered stream of distinct frames leaves the engine state
untouched and reuses the cached per-frame assignments verbatim. -/
theorem replay_pure (cfg : Config) (jS jT : Nat) :
    ∀ (frames : List LinkFrame) (s : DState),
      List.Pairwise (fun a b => a.num ≠ b.num) frames →
      (∀ f ∈ frames, alookup s.proto_data f.num = none) →
      (runStream cfg true jS jT frames (runStream cfg false jS jT frames s).1).1
        = (runStream cfg false jS jT frames s).1
      ∧ (runStream cfg true jS jT frames (runStream cfg false jS jT frames s).1).2.map
          (fun r => r.ident)
        = (runStream cfg false jS jT frames s).2.map (fun r => r.ident)
  | [], _, _, _ => ⟨rfl, rfl⟩
  | f :: rest, s, hp, hfresh => by
    obtain ⟨hhead, hrest⟩ := List.pairwise_cons.mp hp
    have hfresh' : ∀ g ∈ rest, alookup (dissect cfg false jS jT f s).1.proto_data g.num = none := by
      intro g hg
      rw [dissect_proto_other cfg false jS jT f s g.num (fun he => hhead g hg he.symm)]
      exact hfresh g (List.mem_cons_of_mem f hg)
    have ih := replay_pure cfg jS jT rest (dissect cfg false jS jT f s).1 hrest hfresh'
    have hmem : alookup
        (runStream cfg false jS jT rest (dissect cfg false jS jT f s).1).1.proto_data f.num
        = some ((dissect cfg false jS jT f s).2.ident) := by
      rw [runStream_proto_other cfg false jS jT rest _ f.num (fun g hg => hhead g hg)]
      exact dissect_writes_ident cfg false jS jT f s
    have hv := dissect_visited_pure cfg jS jT f
      (runStream cfg false jS jT rest (dissect cfg false jS jT f s).1).1
      ((dissect cfg false jS jT f s).2.ident) hmem
    simp only [runStream]
    constructor
    · rw [hv.1]
      exact ih.1
    · simp only [List.map_cons]
      rw [hv.1, hv.2]
      rw [ih.2]

/-! ## CAN-id mapping characterization (for the addressing claims) -/

theorem find_config_ecu_and_validity (ext : Bool) (cid : Nat)
    (mappings : List ConfigCanAddrMapping) (sa ta : Nat) (m : ConfigCanAddrMapping)
    (hm : mappings.find? (canMappingMatches ext cid) = some m) :
    (m.ecu_addr_mask ≠ 0 →
      find_config_can_addr_mapping ext cid mappings sa ta
        = (1, masked_guint32_value cid m.ecu_addr_mask,
           masked_guint32_value cid m.ecu_addr_mask))
    ∧ ((find_config_can_addr_mapping ext cid mappings sa ta).1 = 2 ↔
        m.ecu_addr_mask = 0 ∧ m.source_addr_mask ≠ 0 ∧ m.target_addr_mask ≠ 0) := by
  simp only [find_config_can_addr_mapping, hm]
  constructor
  · intro he
    rw [if_pos he]
  · by_cases he : m.ecu_addr_mask ≠ 0
    · rw [if_pos he]
      simp [he]
    · rw [if_neg he]
      have he0 : m.ecu_addr_mask = 0 := by omega
      by_cases hst : m.source_addr_mask ≠ 0 ∧ m.target_addr_mask ≠ 0
      · rw [if_pos hst]
        simp [he0, hst.1, hst.2]
      · rw [if_neg hst]
        simp only [he0]
        constructor
        · intro hx
          exact absurd hx (by norm_num)
        · rintro ⟨-, h1, h2⟩
          exact absurd ⟨h1, h2⟩ hst

/-! ## Witness fixtures -/

/-- An open sequence with some history: offset 5 of 4000 expected bytes,
highest fragment id 30, all wrap counters zero. -/
def wfrA : IsoFrame := ⟨1, 5, 4000, false, false, 30, List.replicate 16 0⟩

def wstA : DState := ⟨1, [(1, wfrA)], [], [(1, 5)], []⟩

/-- Like `wfrA` but already errored. -/
def wfrB : IsoFrame := ⟨1, 5, 4000, true, false, 30, List.replicate 16 0⟩

def wstB : DState := ⟨1, [(1, wfrB)], [], [(1, 5)], []⟩

/-- A sequence 4 bytes away from completion (offset 5 of 9). -/
def wfrC : IsoFrame := ⟨1, 5, 9, false, false, 3, List.replicate 16 0⟩

def wstC : DState := ⟨1, [(1, wfrC)], [], [(1, 5)], []⟩

/-- A sequence whose wrap counter for nibble 2 sits at the 255 limit. -/
def wfrD : IsoFrame := ⟨1, 5, 4000, false, false, 40, (List.replicate 16 0).set 2 255⟩

def wstD : DState := ⟨1, [(1, wfrD)], [], [], []⟩

/-- FF then CF with nibble 12: a forward jump past the window. -/
def wFrames1 : List LinkFrame := [mkFF 1 0x123 100 [7, 7, 7], mkCF 2 0x123 12 [1, 2, 3]]

/-- First Frames on two different CAN identifiers, then a CF on the first. -/
def wFrames2 : List LinkFrame :=
  [mkFF 1 0x100 50 [7], mkFF 2 0x200 60 [8], mkCF 3 0x100 1 [1, 2]]

/-- A message that completes and then receives a window-violating
straggler: FF (len 10, 1 byte), CF nib 1 (3 bytes), CF nib 1 (6 bytes,
completes), CF nib 2 (expanded id 2, while 2 + window < 17). -/
def wFrames7 : List LinkFrame :=
  [mkFF 1 0x123 10 [0xAA], mkCF 2 0x123 1 [1, 2, 3],
   mkCF 3 0x123 1 [4, 5, 6, 7, 8, 9], mkCF 4 0x123 2 [0xBB]]

/-- FF + 19 CFs whose nibbles cycle 1,...,15,0,1,2,3. -/
def canonFrames : List LinkFrame :=
  mkFF 100 0x123 4000 [9]
    :: (List.range 19).map (fun j => mkCF (101 + j) 0x123 ((j + 1) % 16) [5])

/-- FF + CFs with nibbles 1..15 and then the first nibble-0 CF. -/
def c10Frames : List LinkFrame :=
  mkFF 1 0x123 4000 [9]
    :: ((List.range 15).map (fun j => mkCF (2 + j) 0x123 (j + 1) [5])
        ++ [mkCF 17 0x123 0 [5]])

/-- The ECU-mask-only mapping rule of the spec's example. -/
def wEcuRule : ConfigCanAddrMapping := ⟨false, 0x700, 0xFF0, 0, 0, 0x00F⟩

/-! ## The claims -/

/-- C1 (counterexample): the code does NOT error when the expanded id
exceeds `maxSeen + window`.  After a First Frame (max seen id 0) a
Consecutive Frame with nibble 12 gets expanded id 12 > 0 + 8, yet the
sequence is not errored and the fragment is submitted for reassembly. -/
theorem C1_counterexample :
    12 > 0 + stdCfg.window
    ∧ ((runStream stdCfg false 0 0 wFrames1 initState).2.map (fun r => r.ident.frag_id))
        = [0, 12]
    ∧ ((runStream stdCfg false 0 0 wFrames1 initState).2.map (fun r => r.submission))
        = [some (1, 0, 3, false), some (1, 12, 3, false)]
    ∧ (alookup (runStream stdCfg false 0 0 wFrames1 initState).1.frame_table 1).map
        IsoFrame.error = some false := by
  decide

/-- C1 (amended): a first-pass Consecutive Frame whose expanded id is more
than `window` BELOW the highest expanded id seen so far
(`expandedId + window < maxSeenId`) transitions the sequence to Errored;
and once Errored, later fragments of the sequence contribute no bytes —
nothing is submitted to the reassembly collaborator, no reassembled output
is produced, and the entry's offset and completion state are frozen. -/
theorem C1_window_errors_and_freeze (cfg : Config)
    (h : cfg.addressing = NORMAL_ADDRESSING)
    (jS jT num fid nib : Nat) (hn : nib < 16) (payload : List Nat) (s : DState)
    (hident : alookup s.proto_data num = none)
    (fr : IsoFrame) (hfr : alookup s.frame_table s.msg_seqid = some fr)
    (hc : cnt fr.frag_id_high nib < 255) :
    (nib + 16 * cnt fr.frag_id_high nib + cfg.window < fr.last_frag_id →
       (alookup (dissect cfg false jS jT (mkCF num fid nib payload) s).1.frame_table
           s.msg_seqid).map IsoFrame.error = some true
       ∧ (dissect cfg false jS jT (mkCF num fid nib payload) s).2.submission = none
       ∧ (dissect cfg false jS jT (mkCF num fid nib payload) s).2.reassembled = none)
    ∧ (fr.error = true →
       (dissect cfg false jS jT (mkCF num fid nib payload) s).2.submission = none
       ∧ (dissect cfg false jS jT (mkCF num fid nib payload) s).2.reassembled = none
       ∧ (alookup (dissect cfg false jS jT (mkCF num fid nib payload) s).1.frame_table
           s.msg_seqid).map IsoFrame.error = some true
       ∧ (alookup (dissect cfg false jS jT (mkCF num fid nib payload) s).1.frame_table
           s.msg_seqid).map IsoFrame.offset = some fr.offset
       ∧ (alookup (dissect cfg false jS jT (mkCF num fid nib payload) s).1.frame_table
           s.msg_seqid).map IsoFrame.complete = some fr.complete
       ∧ (dissect cfg false jS jT (mkCF num fid nib payload) s).1.reasm_acc = s.reasm_acc
       ∧ (dissect cfg false jS jT (mkCF num fid nib payload) s).1.reasm_done
           = s.reasm_done) := by
  constructor
  · intro hw
    obtain ⟨h1, h2, h3, -, -, -⟩ :=
      cfStep_errored cfg h jS jT num fid nib hn payload s hident fr hfr hc (Or.inr hw)
    exact ⟨by simp [h3], h1, h2⟩
  · intro herr
    obtain ⟨h1, h2, h3, h4, h5, -⟩ :=
      cfStep_errored cfg h jS jT num fid nib hn payload s hident fr hfr hc (Or.inl herr)
    exact ⟨h1, h2, by simp [h3], by simp [h3], by simp [h3], h4, h5⟩

/-- C1 (witness). -/
theorem C1_witness :
    (stdCfg.addressing = NORMAL_ADDRESSING ∧ (1 : Nat) < 16
      ∧ alookup wstB.proto_data 5 = none
      ∧ alookup wstB.frame_table wstB.msg_seqid = some wfrB
      ∧ cnt wfrB.frag_id_high 1 < 255)
    ∧ ((1 + 16 * cnt wfrB.frag_id_high 1 + stdCfg.window < wfrB.last_frag_id →
       (alookup (dissect stdCfg false 0 0 (mkCF 5 0x123 1 [9]) wstB).1.frame_table
           wstB.msg_seqid).map IsoFrame.error = some true
       ∧ (dissect stdCfg false 0 0 (mkCF 5 0x123 1 [9]) wstB).2.submission = none
       ∧ (dissect stdCfg false 0 0 (mkCF 5 0x123 1 [9]) wstB).2.reassembled = none)
    ∧ (wfrB.error = true →
       (dissect stdCfg false 0 0 (mkCF 5 0x123 1 [9]) wstB).2.submission = none
       ∧ (dissect stdCfg false 0 0 (mkCF 5 0x123 1 [9]) wstB).2.reassembled = none
       ∧ (alookup (dissect stdCfg false 0 0 (mkCF 5 0x123 1 [9]) wstB).1.frame_table
           wstB.msg_seqid).map IsoFrame.error = some true
       ∧ (alookup (dissect stdCfg false 0 0 (mkCF 5 0x123 1 [9]) wstB).1.frame_table
           wstB.msg_seqid).map IsoFrame.offset = some wfrB.offset
       ∧ (alookup (dissect stdCfg false 0 0 (mkCF 5 0x123 1 [9]) wstB).1.frame_table
           wstB.msg_seqid).map IsoFrame.complete = some wfrB.complete
       ∧ (dissect stdCfg false 0 0 (mkCF 5 0x123 1 [9]) wstB).1.reasm_acc = wstB.reasm_acc
       ∧ (dissect stdCfg false 0 0 (mkCF 5 0x123 1 [9]) wstB).1.reasm_done
           = wstB.reasm_done)) :=
  ⟨by decide,
   C1_window_errors_and_freeze stdCfg rfl 0 0 5 0x123 1 (by decide) [9] wstB
     (by decide) wfrB (by decide) (by decide)⟩

/-- C2 (counterexample): the sequence a Consecutive Frame joins is NOT
resolved per link identity.  After First Frames on CAN ids 0x100 (seq 1)
and 0x200 (seq 2), a CF on id 0x100 is bound to seq 2 — the sequence of the
OTHER link — and its bytes are accumulated there (offset of entry 2 grows
to 3, entry 1 stays at 1). -/
theorem C2_counterexample :
    ((runStream stdCfg false 0 0 wFrames2 initState).2.map (fun r => r.ident.seq))
      = [1, 2, 2]
    ∧ ((runStream stdCfg false 0 0 wFrames2 initState).2.map
        (fun r => r.submission.map (fun t => t.1))) = [some 1, some 2, some 2]
    ∧ (alookup (runStream stdCfg false 0 0 wFrames2 initState).1.frame_table 1).map
        IsoFrame.offset = some 1
    ∧ (alookup (runStream stdCfg false 0 0 wFrames2 initState).1.frame_table 2).map
        IsoFrame.offset = some 3
    ∧ (1 : Nat) ≠ 2 := by
  decide

/-- C2 (amended): a first-pass Consecutive Frame is bound to the globally
most recently allocated sequence (the static `msg_seqid`), irrespective of
link identity; and when that key has no live table entry (e.g. no First
Frame seen yet) the frame is silently dropped — no error, no submission,
no dispatch, and no reassembly-state change. -/
theorem C2_cf_binding (cfg : Config) (h : cfg.addressing = NORMAL_ADDRESSING)
    (jS jT num fid nib : Nat) (hn : nib < 16) (payload : List Nat) (s : DState) :
    (dissect cfg false jS jT (mkCF num fid nib payload) s).2.ident.seq = s.msg_seqid
    ∧ (alookup s.frame_table s.msg_seqid = none →
       (dissect cfg false jS jT (mkCF num fid nib payload) s).1.msg_seqid = s.msg_seqid
       ∧ (dissect cfg false jS jT (mkCF num fid nib payload) s).1.frame_table
           = s.frame_table
       ∧ (dissect cfg false jS jT (mkCF num fid nib payload) s).1.reasm_acc = s.reasm_acc
       ∧ (dissect cfg false jS jT (mkCF num fid nib payload) s).1.reasm_done
           = s.reasm_done
       ∧ (dissect cfg false jS jT (mkCF num fid nib payload) s).2.submission = none
       ∧ (dissect cfg false jS jT (mkCF num fid nib payload) s).2.reassembled = none
       ∧ (dissect cfg false jS jT (mkCF num fid nib payload) s).2.nextTvb = none
       ∧ (dissect cfg false jS jT (mkCF num fid nib payload) s).2.badType = false
       ∧ (dissect cfg false jS jT (mkCF num fid nib payload) s).2.assertFailed = false) :=
  ⟨cfStep_seq cfg h jS jT num fid nib hn payload s,
   fun hl => cfStep_orphan cfg h jS jT num fid nib hn payload s hl⟩

/-- C2 (witness). -/
theorem C2_witness :
    (stdCfg.addressing = NORMAL_ADDRESSING ∧ (3 : Nat) < 16)
    ∧ ((dissect stdCfg false 0 0 (mkCF 1 0x123 3 [4, 4]) initState).2.ident.seq
        = initState.msg_seqid
    ∧ (alookup initState.frame_table initState.msg_seqid = none →
       (dissect stdCfg false 0 0 (mkCF 1 0x123 3 [4, 4]) initState).1.msg_seqid
           = initState.msg_seqid
       ∧ (dissect stdCfg false 0 0 (mkCF 1 0x123 3 [4, 4]) initState).1.frame_table
           = initState.frame_table
       ∧ (dissect stdCfg false 0 0 (mkCF 1 0x123 3 [4, 4]) initState).1.reasm_acc
           = initState.reasm_acc
       ∧ (dissect stdCfg false 0 0 (mkCF 1 0x123 3 [4, 4]) initState).1.reasm_done
           = initState.reasm_done
       ∧ (dissect stdCfg false 0 0 (mkCF 1 0x123 3 [4, 4]) initState).2.submission = none
       ∧ (dissect stdCfg false 0 0 (mkCF 1 0x123 3 [4, 4]) initState).2.reassembled = none
       ∧ (dissect stdCfg false 0 0 (mkCF 1 0x123 3 [4, 4]) initState).2.nextTvb = none
       ∧ (dissect stdCfg false 0 0 (mkCF 1 0x123 3 [4, 4]) initState).2.badType = false
       ∧ (dissect stdCfg false 0 0 (mkCF 1 0x123 3 [4, 4]) initState).2.assertFailed
           = false)) :=
  ⟨by decide, C2_cf_binding stdCfg rfl 0 0 1 0x123 3 (by decide) [4, 4] initState⟩

/-- C3: within one sequence, a first-pass Consecutive Frame with low
nibble `nib` gets expanded fragment id `nib + 16 × wrapCount[nib]` and the
per-nibble wrap counter is incremented; concretely the nibble stream
0,1,...,15,0,1,2,3 of one message expands to 0,1,...,19. -/
theorem C3_sequence_expansion (cfg : Config) (h : cfg.addressing = NORMAL_ADDRESSING)
    (jS jT num fid nib : Nat) (hn : nib < 16) (payload : List Nat) (s : DState)
    (hident : alookup s.proto_data num = none)
    (fr : IsoFrame) (hfr : alookup s.frame_table s.msg_seqid = some fr)
    (hlen : fr.frag_id_high.length = 16)
    (hc : cnt fr.frag_id_high nib < 255) :
    (dissect cfg false jS jT (mkCF num fid nib payload) s).2.ident.frag_id
        = nib + 16 * cnt fr.frag_id_high nib
    ∧ (alookup (dissect cfg false jS jT (mkCF num fid nib payload) s).1.frame_table
        s.msg_seqid).map (fun g => cnt g.frag_id_high nib)
        = some (cnt fr.frag_id_high nib + 1)
    ∧ ((runStream stdCfg false 0 0 canonFrames initState).2.map
        (fun r => r.ident.frag_id)) = List.range 20 := by
  obtain ⟨h1, h2⟩ :=
    cfStep_fragId_counter cfg h jS jT num fid nib hn payload s hident fr hfr hlen hc
  exact ⟨h1, h2, by decide⟩

/-- C3 (witness). -/
theorem C3_witness :
    (stdCfg.addressing = NORMAL_ADDRESSING ∧ (3 : Nat) < 16
      ∧ alookup wstA.proto_data 7 = none
      ∧ alookup wstA.frame_table wstA.msg_seqid = some wfrA
      ∧ wfrA.frag_id_high.length = 16
      ∧ cnt wfrA.frag_id_high 3 < 255)
    ∧ ((dissect stdCfg false 0 0 (mkCF 7 0x123 3 [5, 5]) wstA).2.ident.frag_id
        = 3 + 16 * cnt wfrA.frag_id_high 3
    ∧ (alookup (dissect stdCfg false 0 0 (mkCF 7 0x123 3 [5, 5]) wstA).1.frame_table
        wstA.msg_seqid).map (fun g => cnt g.frag_id_high 3)
        = some (cnt wfrA.frag_id_high 3 + 1)
    ∧ ((runStream stdCfg false 0 0 canonFrames initState).2.map
        (fun r => r.ident.frag_id)) = List.range 20) :=
  ⟨by decide,
   C3_sequence_expansion stdCfg rfl 0 0 7 0x123 3 (by decide) [5, 5] wstA (by decide)
     wfrA (by decide) (by decide) (by decide)⟩

/-- C4: when the accumulated byte count first reaches or exceeds the
expected total length, the final fragment is trimmed to the exact
remainder, flagged terminal, the sequence is marked Complete, and exactly
one reassembled message of the declared length is produced (never a second
one once the collaborator holds a completed message); before that point no
completion and no reassembled output happen. -/
theorem C4_completion (cfg : Config) (h : cfg.addressing = NORMAL_ADDRESSING)
    (jS jT num fid nib : Nat) (hn : nib < 16) (payload : List Nat) (s : DState)
    (hident : alookup s.proto_data num = none)
    (fr : IsoFrame) (hfr : alookup s.frame_table s.msg_seqid = some fr)
    (hc : cnt fr.frag_id_high nib < 255)
    (herr : fr.error = false)
    (hw : ¬ nib + 16 * cnt fr.frag_id_high nib + cfg.window < fr.last_frag_id)
    (hb : fr.offset + payload.length < 4294967296)
    (hacc : (alookup s.reasm_acc s.msg_seqid).getD 0 = fr.offset)
    (hoff : fr.offset < fr.len) :
    (fr.len ≤ fr.offset + payload.length ∧ alookup s.reasm_done s.msg_seqid = none →
       (dissect cfg false jS jT (mkCF num fid nib payload) s).2.submission
         = some (s.msg_seqid, nib + 16 * cnt fr.frag_id_high nib,
                 fr.len - fr.offset, true)
       ∧ (dissect cfg false jS jT (mkCF num fid nib payload) s).2.ident.last = true
       ∧ (alookup (dissect cfg false jS jT (mkCF num fid nib payload) s).1.frame_table
           s.msg_seqid).map IsoFrame.complete = some true
       ∧ (dissect cfg false jS jT (mkCF num fid nib payload) s).2.reassembled
         = some (s.msg_seqid, fr.len))
    ∧ (fr.len ≤ fr.offset + payload.length ∧ (alookup s.reasm_done s.msg_seqid).isSome →
       (dissect cfg false jS jT (mkCF num fid nib payload) s).2.reassembled = none)
    ∧ (fr.offset + payload.length < fr.len →
       (dissect cfg false jS jT (mkCF num fid nib payload) s).2.submission
         = some (s.msg_seqid, nib + 16 * cnt fr.frag_id_high nib, payload.length, false)
       ∧ (dissect cfg false jS jT (mkCF num fid nib payload) s).2.ident.last = false
       ∧ (alookup (dissect cfg false jS jT (mkCF num fid nib payload) s).1.frame_table
           s.msg_seqid).map IsoFrame.complete = some fr.complete
       ∧ (dissect cfg false jS jT (mkCF num fid nib payload) s).2.reassembled = none) :=
  cfStep_incorporate cfg h jS jT num fid nib hn payload s hident fr hfr hc herr hw
    hb hacc hoff

/-- C4 (witness). -/
theorem C4_witness :
    (stdCfg.addressing = NORMAL_ADDRESSING ∧ (4 : Nat) < 16
      ∧ alookup wstC.proto_data 9 = none
      ∧ alookup wstC.frame_table wstC.msg_seqid = some wfrC
      ∧ cnt wfrC.frag_id_high 4 < 255
      ∧ wfrC.error = false
      ∧ ¬ 4 + 16 * cnt wfrC.frag_id_high 4 + stdCfg.window < wfrC.last_frag_id
      ∧ wfrC.offset + [6, 6, 6, 6, 6, 6].length < 4294967296
      ∧ (alookup wstC.reasm_acc wstC.msg_seqid).getD 0 = wfrC.offset
      ∧ wfrC.offset < wfrC.len)
    ∧ ((wfrC.len ≤ wfrC.offset + [6, 6, 6, 6, 6, 6].length
          ∧ alookup wstC.reasm_done wstC.msg_seqid = none →
       (dissect stdCfg false 0 0 (mkCF 9 0x123 4 [6, 6, 6, 6, 6, 6]) wstC).2.submission
         = some (wstC.msg_seqid, 4 + 16 * cnt wfrC.frag_id_high 4,
                 wfrC.len - wfrC.offset, true)
       ∧ (dissect stdCfg false 0 0 (mkCF 9 0x123 4 [6, 6, 6, 6, 6, 6]) wstC).2.ident.last
           = true
       ∧ (alookup (dissect stdCfg false 0 0
             (mkCF 9 0x123 4 [6, 6, 6, 6, 6, 6]) wstC).1.frame_table
           wstC.msg_seqid).map IsoFrame.complete = some true
       ∧ (dissect stdCfg false 0 0 (mkCF 9 0x123 4 [6, 6, 6, 6, 6, 6]) wstC).2.reassembled
         = some (wstC.msg_seqid, wfrC.len))
    ∧ (wfrC.len ≤ wfrC.offset + [6, 6, 6, 6, 6, 6].length
          ∧ (alookup wstC.reasm_done wstC.msg_seqid).isSome →
       (dissect stdCfg false 0 0 (mkCF 9 0x123 4 [6, 6, 6, 6, 6, 6]) wstC).2.reassembled
         = none)
    ∧ (wfrC.offset + [6, 6, 6, 6, 6, 6].length < wfrC.len →
       (dissect stdCfg false 0 0 (mkCF 9 0x123 4 [6, 6, 6, 6, 6, 6]) wstC).2.submission
         = some (wstC.msg_seqid, 4 + 16 * cnt wfrC.frag_id_high 4,
                 [6, 6, 6, 6, 6, 6].length, false)
       ∧ (dissect stdCfg false 0 0 (mkCF 9 0x123 4 [6, 6, 6, 6, 6, 6]) wstC).2.ident.last
           = false
       ∧ (alookup (dissect stdCfg false 0 0
             (mkCF 9 0x123 4 [6, 6, 6, 6, 6, 6]) wstC).1.frame_table
           wstC.msg_seqid).map IsoFrame.complete = some wfrC.complete
       ∧ (dissect stdCfg false 0 0 (mkCF 9 0x123 4 [6, 6, 6, 6, 6, 6]) wstC).2.reassembled
         = none)) :=
  ⟨by decide,
   C4_completion stdCfg rfl 0 0 9 0x123 4 (by decide) [6, 6, 6, 6, 6, 6] wstC (by decide)
     wfrC (by decide) (by decide) (by decide) (by decide) (by decide) (by decide)
     (by decide)⟩

/-- C5 (code bug): with no matching CAN-id mapping rule (here: an empty
table), resolution returns validity count 0 but does NOT write the
0xFFFFFFFF sentinel into the address fields — they keep whatever value the
caller's uninitialised variables held (here 0, and 7/9 through the full
dissector path), contradicting the claim and the function's own comment
("setting addresses to 0xffffffff, if not found or configured"). -/
theorem C5_unresolved_addr :
    find_config_can_addr_mapping false 0x123 [] 0 0 = (0, 0, 0)
    ∧ find_config_can_addr_mapping false 0x123 [] 7 9 = (0, 7, 9)
    ∧ (0 : Nat) ≠ ISO15765_ADDR_INVALID
    ∧ (dissect stdCfg false 7 9 (mkSF 1 0x123 3 [9, 9, 9] 8) initState).2.valid = 0
    ∧ (dissect stdCfg false 7 9 (mkSF 1 0x123 3 [9, 9, 9] 8) initState).2.srcAddr = 7
    ∧ (dissect stdCfg false 7 9 (mkSF 1 0x123 3 [9, 9, 9] 8) initState).2.tgtAddr = 9
    ∧ (7 : Nat) ≠ ISO15765_ADDR_INVALID := by
  decide

/-- C6 (counterexample): a rule defining only an ECU mask does NOT leave
the target address at the unresolved sentinel: on identifier 0x705 with
ECU mask 0x00F both source and target become 5. -/
theorem C6_counterexample :
    find_config_can_addr_mapping false 0x705 [wEcuRule]
        ISO15765_ADDR_INVALID ISO15765_ADDR_INVALID = (1, 5, 5)
    ∧ (5 : Nat) ≠ ISO15765_ADDR_INVALID := by
  decide

/-- C6 (amended): a matching rule that defines an ECU mask yields validity
count 1 with source and target BOTH set to the same masked value (the
sentinel does not survive); and validity count 2 holds exactly when the
matching rule has no ECU mask and defines both a source and a target
mask. -/
theorem C6_mapping_validity (ext : Bool) (cid : Nat)
    (mappings : List ConfigCanAddrMapping) (sa ta : Nat) (m : ConfigCanAddrMapping)
    (hm : mappings.find? (canMappingMatches ext cid) = some m) :
    (m.ecu_addr_mask ≠ 0 →
      find_config_can_addr_mapping ext cid mappings sa ta
        = (1, masked_guint32_value cid m.ecu_addr_mask,
           masked_guint32_value cid m.ecu_addr_mask))
    ∧ ((find_config_can_addr_mapping ext cid mappings sa ta).1 = 2 ↔
        m.ecu_addr_mask = 0 ∧ m.source_addr_mask ≠ 0 ∧ m.target_addr_mask ≠ 0) :=
  find_config_ecu_and_validity ext cid mappings sa ta m hm

/-- C6 (witness). -/
theorem C6_witness :
    ([wEcuRule].find? (canMappingMatches false 0x705) = some wEcuRule)
    ∧ ((wEcuRule.ecu_addr_mask ≠ 0 →
      find_config_can_addr_mapping false 0x705 [wEcuRule] 3 4
        = (1, masked_guint32_value 0x705 wEcuRule.ecu_addr_mask,
           masked_guint32_value 0x705 wEcuRule.ecu_addr_mask))
    ∧ ((find_config_can_addr_mapping false 0x705 [wEcuRule] 3 4).1 = 2 ↔
        wEcuRule.ecu_addr_mask = 0 ∧ wEcuRule.source_addr_mask ≠ 0
          ∧ wEcuRule.target_addr_mask ≠ 0)) :=
  ⟨by decide, C6_mapping_validity false 0x705 [wEcuRule] 3 4 wEcuRule (by decide)⟩

/-- C7 (counterexample): replaying the identical ordered stream does NOT
always yield identical reassembled output.  A message completes at frame 3
and then receives a window-violating straggler (frame 4) that sets its
error flag; on the replay pass frame 3 reads that flag back and no longer
produces the reassembled message it produced on the first pass. -/
theorem C7_counterexample :
    ((runStream stdCfg false 0 0 wFrames7 initState).2.map (fun r => r.reassembled))
      = [none, none, some (1, 10), none]
    ∧ ((runStream stdCfg true 0 0 wFrames7
        (runStream stdCfg false 0 0 wFrames7 initState).1).2.map (fun r => r.reassembled))
      = [none, none, none, none] := by
  decide

/-- C7 (amended): replaying an ordered stream of distinct frames mutates
no engine state — no sequence-id counter, no wrap counter, no table — and
the second pass reuses the cached per-frame assignments (sequence id,
expanded fragment id, terminal flag) verbatim; reassembled-payload
dispatch may differ on replay only for a sequence errored after its
completion. -/
theorem C7_replay_no_mutation (cfg : Config) (jS jT : Nat) (frames : List LinkFrame)
    (hnums : List.Pairwise (fun a b => a.num ≠ b.num) frames) :
    (runStream cfg true jS jT frames (runStream cfg false jS jT frames initState).1).1
      = (runStream cfg false jS jT frames initState).1
    ∧ (runStream cfg true jS jT frames
        (runStream cfg false jS jT frames initState).1).2.map (fun r => r.ident)
      = (runStream cfg false jS jT frames initState).2.map (fun r => r.ident) :=
  replay_pure cfg jS jT frames initState hnums (fun _ _ => rfl)

/-- C7 (witness). -/
theorem C7_witness :
    (List.Pairwise (fun a b => a.num ≠ b.num) wFrames7)
    ∧ ((runStream stdCfg true 0 0 wFrames7
        (runStream stdCfg false 0 0 wFrames7 initState).1).1
      = (runStream stdCfg false 0 0 wFrames7 initState).1
    ∧ (runStream stdCfg true 0 0 wFrames7
        (runStream stdCfg false 0 0 wFrames7 initState).1).2.map (fun r => r.ident)
      = (runStream stdCfg false 0 0 wFrames7 initState).2.map (fun r => r.ident)) :=
  ⟨by decide, C7_replay_no_mutation stdCfg 0 0 wFrames7 (by decide)⟩

/-- C8: a Single Frame with control low nibble `L ∈ [1,7]` carries exactly
`L` payload bytes starting right after the one-byte control field; with
low nibble 0 and physical frame length above 8 (CAN-FD escape) the payload
length is the explicit following length byte and the payload starts after
it. -/
theorem C8_single_frame (cfg : Config) (h : cfg.addressing = NORMAL_ADDRESSING)
    (jS jT num fid : Nat) (rest : List Nat) (s : DState) (visited : Bool) :
    (∀ L flen, 1 ≤ L → L ≤ 7 →
       (dissect cfg visited jS jT (mkSF num fid L rest flen) s).2.nextTvb
         = some (rest.take L, true))
    ∧ (∀ flen lb, flen > 8 → lb < 256 →
       (dissect cfg visited jS jT (mkSF num fid 0 (lb :: rest) flen) s).2.nextTvb
         = some (rest.take lb, true)) :=
  sfStep cfg h jS jT num fid rest s visited

/-- C8 (witness). -/
theorem C8_witness :
    (stdCfg.addressing = NORMAL_ADDRESSING)
    ∧ ((∀ L flen, 1 ≤ L → L ≤ 7 →
       (dissect stdCfg false 0 0 (mkSF 1 0x123 L [9, 8, 7] flen) initState).2.nextTvb
         = some ([9, 8, 7].take L, true))
    ∧ (∀ flen lb, flen > 8 → lb < 256 →
       (dissect stdCfg false 0 0 (mkSF 1 0x123 0 (lb :: [9, 8, 7]) flen)
           initState).2.nextTvb = some ([9, 8, 7].take lb, true))) :=
  ⟨by decide, C8_single_frame stdCfg rfl 0 0 1 0x123 [9, 8, 7] initState false⟩

/-- C9: a first-pass Consecutive Frame whose nibble's wrap counter already
sits at 255 (more than 4096 fragments) raises the dissector assertion:
that frame is aborted with no expanded id assigned, nothing submitted or
dispatched, while the global sequence counter, every other sequence's
entry, and the collaborator state are untouched, and all subsequent frames
of the stream are still processed. -/
theorem C9_wrap_overflow (cfg : Config) (h : cfg.addressing = NORMAL_ADDRESSING)
    (jS jT num fid nib : Nat) (hn : nib < 16) (payload : List Nat) (s : DState)
    (hident : alookup s.proto_data num = none)
    (fr : IsoFrame) (hfr : alookup s.frame_table s.msg_seqid = some fr)
    (hc : cnt fr.frag_id_high nib = 255) :
    (dissect cfg false jS jT (mkCF num fid nib payload) s).2.assertFailed = true
    ∧ (dissect cfg false jS jT (mkCF num fid nib payload) s).2.submission = none
    ∧ (dissect cfg false jS jT (mkCF num fid nib payload) s).2.reassembled = none
    ∧ (dissect cfg false jS jT (mkCF num fid nib payload) s).2.nextTvb = none
    ∧ (dissect cfg false jS jT (mkCF num fid nib payload) s).1.msg_seqid = s.msg_seqid
    ∧ (∀ q, q ≠ s.msg_seqid →
        alookup (dissect cfg false jS jT (mkCF num fid nib payload) s).1.frame_table q
          = alookup s.frame_table q)
    ∧ (dissect cfg false jS jT (mkCF num fid nib payload) s).1.reasm_acc = s.reasm_acc
    ∧ (dissect cfg false jS jT (mkCF num fid nib payload) s).1.reasm_done = s.reasm_done
    ∧ (dissect cfg false jS jT (mkCF num fid nib payload) s).2.ident.frag_id = 0
    ∧ (∀ rest : List LinkFrame,
        (runStream cfg false jS jT (mkCF num fid nib payload :: rest) s).2.length
          = rest.length + 1) := by
  obtain ⟨h1, h2, h3, h4, h5, h6, h7, h8, h9⟩ :=
    cfStep_assert cfg h jS jT num fid nib hn payload s hident fr hfr hc
  refine ⟨h1, h2, h3, h4, h5, h6, h7, h8, h9, ?_⟩
  intro rest
  simpa using runStream_length cfg false jS jT (mkCF num fid nib payload :: rest) s

/-- C9 (witness). -/
theorem C9_witness :
    (stdCfg.addressing = NORMAL_ADDRESSING ∧ (2 : Nat) < 16
      ∧ alookup wstD.proto_data 11 = none
      ∧ alookup wstD.frame_table wstD.msg_seqid = some wfrD
      ∧ cnt wfrD.frag_id_high 2 = 255)
    ∧ ((dissect stdCfg false 0 0 (mkCF 11 0x123 2 [5]) wstD).2.assertFailed = true
    ∧ (dissect stdCfg false 0 0 (mkCF 11 0x123 2 [5]) wstD).2.submission = none
    ∧ (dissect stdCfg false 0 0 (mkCF 11 0x123 2 [5]) wstD).2.reassembled = none
    ∧ (dissect stdCfg false 0 0 (mkCF 11 0x123 2 [5]) wstD).2.nextTvb = none
    ∧ (dissect stdCfg false 0 0 (mkCF 11 0x123 2 [5]) wstD).1.msg_seqid = wstD.msg_seqid
    ∧ (∀ q, q ≠ wstD.msg_seqid →
        alookup (dissect stdCfg false 0 0 (mkCF 11 0x123 2 [5]) wstD).1.frame_table q
          = alookup wstD.frame_table q)
    ∧ (dissect stdCfg false 0 0 (mkCF 11 0x123 2 [5]) wstD).1.reasm_acc = wstD.reasm_acc
    ∧ (dissect stdCfg false 0 0 (mkCF 11 0x123 2 [5]) wstD).1.reasm_done = wstD.reasm_done
    ∧ (dissect stdCfg false 0 0 (mkCF 11 0x123 2 [5]) wstD).2.ident.frag_id = 0
    ∧ (∀ rest : List LinkFrame,
        (runStream stdCfg false 0 0 (mkCF 11 0x123 2 [5] :: rest) wstD).2.length
          = rest.length + 1)) :=
  ⟨by decide,
   C9_wrap_overflow stdCfg rfl 0 0 11 0x123 2 (by decide) [5] wstD (by decide) wfrD
     (by decide) (by decide)⟩

/-- C10: a first-pass First Frame is itself submitted to the reassembly
collaborator with expanded fragment id 0 and bumps the wrap counter of
low-id 0 to 1; consequently a Consecutive Frame with nibble 0 arriving
while that counter is 1 gets expanded id 16, and in the canonical stream
FF,1,...,15,0 the nibble-0 CF gets id 16, never 0. -/
theorem C10_ff_consumes_nibble_zero (cfg : Config)
    (h : cfg.addressing = NORMAL_ADDRESSING)
    (jS jT num fid len : Nat) (hl1 : len ≠ 0) (hl2 : len < 4096) (payload : List Nat)
    (s : DState) (hident : alookup s.proto_data num = none) :
    ((dissect cfg false jS jT (mkFF num fid len payload) s).2.submission.map
        (fun t => (t.1, t.2.1))) = some ((s.msg_seqid + 1) % 4294967296, 0)
    ∧ (alookup (dissect cfg false jS jT (mkFF num fid len payload) s).1.frame_table
        ((s.msg_seqid + 1) % 4294967296)).map (fun g => cnt g.frag_id_high 0) = some 1
    ∧ (dissect cfg false jS jT (mkFF num fid len payload) s).2.ident.frag_id = 0
    ∧ (∀ (s2 : DState) (num2 fid2 : Nat) (payload2 : List Nat) (fr : IsoFrame),
        alookup s2.proto_data num2 = none →
        alookup s2.frame_table s2.msg_seqid = some fr →
        fr.frag_id_high.length = 16 →
        cnt fr.frag_id_high 0 = 1 →
        (dissect cfg false jS jT (mkCF num2 fid2 0 payload2) s2).2.ident.frag_id = 16)
    ∧ ((runStream stdCfg false 0 0 c10Frames initState).2.map
        (fun r => r.ident.frag_id)) = List.range 17 := by
  obtain ⟨h1, h2, h3, -, -⟩ :=
    ffStep_allocates cfg h jS jT num fid len hl1 hl2 payload s hident
  refine ⟨h1, h2, h3, ?_, by decide⟩
  intro s2 num2 fid2 payload2 fr hident2 hfr2 hlen2 hc2
  have := (cfStep_fragId_counter cfg h jS jT num2 fid2 0 (by norm_num) payload2 s2
    hident2 fr hfr2 hlen2 (by rw [hc2]; norm_num)).1
  rw [this, hc2]

/-- C10 (witness). -/
theorem C10_witness :
    (stdCfg.addressing = NORMAL_ADDRESSING ∧ (100 : Nat) ≠ 0 ∧ (100 : Nat) < 4096
      ∧ alookup initState.proto_data 1 = none)
    ∧ (((dissect stdCfg false 0 0 (mkFF 1 0x123 100 [9]) initState).2.submission.map
        (fun t => (t.1, t.2.1))) = some ((initState.msg_seqid + 1) % 4294967296, 0)
    ∧ (alookup (dissect stdCfg false 0 0 (mkFF 1 0x123 100 [9]) initState).1.frame_table
        ((initState.msg_seqid + 1) % 4294967296)).map (fun g => cnt g.frag_id_high 0)
        = some 1
    ∧ (dissect stdCfg false 0 0 (mkFF 1 0x123 100 [9]) initState).2.ident.frag_id = 0
    ∧ (∀ (s2 : DState) (num2 fid2 : Nat) (payload2 : List Nat) (fr : IsoFrame),
        alookup s2.proto_data num2 = none →
        alookup s2.frame_table s2.msg_seqid = some fr →
        fr.frag_id_high.length = 16 →
        cnt fr.frag_id_high 0 = 1 →
        (dissect stdCfg false 0 0 (mkCF num2 fid2 0 payload2) s2).2.ident.frag_id = 16)
    ∧ ((runStream stdCfg false 0 0 c10Frames initState).2.map
        (fun r => r.ident.frag_id)) = List.range 17) :=
  ⟨by decide,
   C10_ff_consumes_nibble_zero stdCfg rfl 0 0 1 0x123 100 (by decide) (by decide) [9]
     initState (by decide)⟩

end Iso15765
